import Mathlib

/-!
# Tiresias audio fingerprint catalog: `fp_handler.c`

A shallow embedding of the catalog and matching code of `src/fp_handler.c`.

* C strings are `String`; the `NULL` checks on arguments have no counterpart,
  every argument here is a present string.
* `double` values (coefficients, tolerance) are exact rationals `ℚ`. A value
  that is not finite (`10 * log10(fabs(x))` at `x = 0`) is `none`: `json_real`
  refuses it, the key is not set and the store keeps NULL in that column. The
  `%f` rendering of the bounds of the search query is `render_f`.
* SQL text is a structured statement (`Stmt`). The code pastes a text between
  two quotes without escaping: a `where` clause whose pasted texts hold no
  quote compares the column with the text; when one holds a quote the clause
  is another statement, and how the store reads it is part of the store model.
* `fp_generate_uuid` is random: each function that calls it receives the
  generated identifier as an explicit argument `uuid`.
* The storage layer (`db_ctx_*`), the file system, MD5, the heap and the aubio
  pipeline are not part of `fp_handler.c`; they appear as the store model `Db`
  and the environment `Env`.
-/

namespace Tiresias

/-! ## Constants -/

/-- Number of cepstral coefficients per frame, `DEF_AUBIO_COEFS`. -/
abbrev DEF_AUBIO_COEFS : Nat := 13

/-- Default tolerance, `DEF_SEARCH_TOLERANCE` (0.001). -/
def DEF_SEARCH_TOLERANCE : ℚ := 1 / 1000

/-- Length of an MD5 digest in bytes, `MD5_DIGEST_LENGTH`. -/
abbrev MD5_DIGEST_LENGTH : Nat := 16

/-! ## Records -/

/-- Row of `context_list(name, directory)`. -/
structure ContextRow where
  name : String
  directory : String
deriving DecidableEq

/-- Row of `audio_list(uuid, name, context, hash)`. -/
structure AudioRow where
  uuid : String
  name : String
  context : String
  hash : String
deriving DecidableEq

/-- One element of the array built by `create_audio_fingerprints`:
`frame_idx`, `audio_uuid` and the keys `max1 .. max13` (index `i` is `max(i+1)`);
`none` is a key that was not set, because `json_real` refused the value. -/
structure Frame where
  frame_idx : Nat
  audio_uuid : String
  max : Fin DEF_AUBIO_COEFS → Option ℚ

/-- Row of `audio_fingerprint(context, audio_uuid, frame_idx, max1 .. max13)`;
scratch tables made by `create_temp_search_table` have the same columns.
`none` is NULL. -/
structure FpRow where
  context : String
  audio_uuid : String
  frame_idx : Nat
  max : Fin DEF_AUBIO_COEFS → Option ℚ

/-- A record handed to `db_ctx_insert`, tagged with its table. -/
inductive Record where
  | context_list (r : ContextRow)
  | audio_list (r : AudioRow)
  | audio_fingerprint (r : FpRow)

/-- One range condition `max(i+1) >= lo and max(i+1) <= hi` of the search
query; `lo` and `hi` are the numbers written in the text. -/
structure Cond where
  col : Fin DEF_AUBIO_COEFS
  lo : ℚ
  hi : ℚ

/-- The statements `fp_handler.c` sends to the store. -/
inductive Stmt where
  /-- Text `delete from audio_list where uuid='%s';`. -/
  | delete_audio_list (uuid : String)
  /-- Text `delete from audio_fingerprint where audio_uuid='%s';`. -/
  | delete_audio_fingerprint (audio_uuid : String)
  /-- Text `delete from context_list where name == '%s';`. -/
  | delete_context_list (name : String)
  /-- Text `create table %s(context, audio_uuid, frame_idx, max1 .. max13);`. -/
  | create_table (tablename : String)
  /-- Text `drop table %s;`. -/
  | drop_table (tablename : String)
  /-- Text `insert into %s select * from audio_fingerprint where <conds> group by audio_uuid`. -/
  | insert_select (tablename : String) (conds : List Cond)
  /-- Statement of `db_ctx_insert`. -/
  | insert (r : Record)
  /-- Statement of `db_ctx_insert_or_replace`. -/
  | insert_or_replace (r : Record)

/-! ## The store -/

/-- Modelled from the spec: the storage collaborator behind `db_ctx_*`
(`db_ctx_handler.c` is absent). The three catalog tables are lists of rows in
insertion order, scratch tables are looked up by name. `faults` is the list of
outcomes the store will give to the coming statements (`true`: the statement
fails with a StorageError and has no effect; an exhausted list means no more
failures). `issued` records every statement received, failed or not.

Two things the statements leave to the store are fields as well. `read_*` is
the reading of a `where` text in which a pasted value holds a quote: the rows
of the table that it selects (a text the store cannot read selects none).
`tie_first a b` tells whether, of two groups with the same `count(*)`, the one
of `audio_uuid` `a` is returned before the one of `b`: the ranking query
orders by `count(*)` only. -/
structure Db where
  context_list : List ContextRow
  audio_list : List AudioRow
  audio_fingerprint : List FpRow
  scratch : String → Option (List FpRow)
  faults : List Bool
  issued : List Stmt
  read_context_list : String → ContextRow → Bool
  read_audio_list : String → AudioRow → Bool
  read_audio_fingerprint : String → FpRow → Bool
  tie_first : String → String → Bool

/-- Whether a text holds the quote character `'`. -/
def has_quote (text : String) : Bool :=
  text.data.any (fun c => c == Char.ofNat 39)

/-- Modelled from the spec: the rows a `where` clause selects. `text` is the
clause as the code builds it, `pasted` the values it pasted between quotes,
`plain` the comparison the clause makes when none of them holds a quote. -/
def select_where {α : Type} (reading : String → α → Bool) (text : String)
    (pasted : List String) (plain : α → Bool) : α → Bool :=
  if pasted.any has_quote then reading text else plain

/-- The clause `uuid = '%s'` on `audio_list` (`get_audio_list_info`, and with
other spacing the delete of `fp_delete_audio_list_info`). -/
def where_uuid (db : Db) (uuid : String) : AudioRow → Bool :=
  select_where db.read_audio_list ("uuid = \x27" ++ uuid ++ "\x27") [uuid]
    (fun r => r.uuid == uuid)

/-- The clause `audio_uuid='%s'` on `audio_fingerprint`
(`fp_delete_audio_list_info`). -/
def where_audio_uuid (db : Db) (audio_uuid : String) : FpRow → Bool :=
  select_where db.read_audio_fingerprint ("audio_uuid=\x27" ++ audio_uuid ++ "\x27")
    [audio_uuid] (fun r => r.audio_uuid == audio_uuid)

/-- The clause `context = '%s'` on `audio_list`
(`fp_get_audio_lists_by_contextname`). -/
def where_context (db : Db) (name : String) : AudioRow → Bool :=
  select_where db.read_audio_list ("context = \x27" ++ name ++ "\x27") [name]
    (fun r => r.context == name)

/-- The clause `context = '%s' and hash = '%s'` on `audio_list`
(`get_audio_list_info_by_context_and_hash`). -/
def where_context_and_hash (db : Db) (context hash : String) : AudioRow → Bool :=
  select_where db.read_audio_list
    ("context = \x27" ++ context ++ "\x27 and hash = \x27" ++ hash ++ "\x27") [context, hash]
    (fun r => r.context == context && r.hash == hash)

/-- The clause `name == '%s'` on `context_list` (`fp_get_context_list_info`,
`delete_context_list_info`). -/
def where_name (db : Db) (name : String) : ContextRow → Bool :=
  select_where db.read_context_list ("name == \x27" ++ name ++ "\x27") [name]
    (fun r => r.name == name)

/-- Modelled from the spec: `group by audio_uuid` of a `select *`, one row per
distinct `audio_uuid`, namely the first row met of each group, groups in order
of first appearance; `seen` holds the identifiers already emitted. -/
def group_by_audio_uuid_from (seen : List String) : List FpRow → List FpRow
  | [] => []
  | r :: rs =>
    if r.audio_uuid ∈ seen then group_by_audio_uuid_from seen rs
    else r :: group_by_audio_uuid_from (r.audio_uuid :: seen) rs

/-- Modelled from the spec: `group by audio_uuid` ("grouped/deduplicated by
`audio_uuid`"). -/
def group_by_audio_uuid (rows : List FpRow) : List FpRow :=
  group_by_audio_uuid_from [] rows

/-- Modelled from the spec: one range condition on a column value; NULL
satisfies no comparison. -/
def cond_holds (lo hi : ℚ) : Option ℚ → Bool
  | none => false
  | some v => decide (v ≥ lo) && decide (v ≤ hi)

/-- Modelled from the spec: the `where` clause of the search query, "an AND of
per-dimension range conditions". -/
def where_conds (conds : List Cond) (s : FpRow) : Bool :=
  conds.all (fun c => cond_holds c.lo c.hi (s.max c.col))

/-- Modelled from the spec: `insert_or_replace(table, record)` into
`context_list`. The table declared by `init_database` has no key, so no stored
row conflicts with the new one and the record is appended. -/
def replace_into_context_list (rows : List ContextRow) (r : ContextRow) : List ContextRow :=
  rows ++ [r]

/-- Modelled from the spec: the effect of a statement the store executes;
`none` when the statement is an error for the store (creating a table that
exists, writing to or dropping a table that does not). -/
def sql_effect (db : Db) : Stmt → Option Db
  | .delete_audio_list uuid =>
    some { db with audio_list := db.audio_list.filter (fun r => !where_uuid db uuid r) }
  | .delete_audio_fingerprint audio_uuid =>
    some { db with
      audio_fingerprint :=
        db.audio_fingerprint.filter (fun r => !where_audio_uuid db audio_uuid r) }
  | .delete_context_list name =>
    some { db with context_list := db.context_list.filter (fun r => !where_name db name r) }
  | .create_table tablename =>
    match db.scratch tablename with
    | some _ => none
    | none => some { db with scratch := Function.update db.scratch tablename (some []) }
  | .drop_table tablename =>
    match db.scratch tablename with
    | none => none
    | some _ => some { db with scratch := Function.update db.scratch tablename none }
  | .insert_select tablename conds =>
    match db.scratch tablename with
    | none => none
    | some rows =>
      some { db with
        scratch := Function.update db.scratch tablename
          (some (rows ++ group_by_audio_uuid (db.audio_fingerprint.filter (where_conds conds)))) }
  | .insert (.context_list r) => some { db with context_list := db.context_list ++ [r] }
  | .insert (.audio_list r) => some { db with audio_list := db.audio_list ++ [r] }
  | .insert (.audio_fingerprint r) =>
    some { db with audio_fingerprint := db.audio_fingerprint ++ [r] }
  | .insert_or_replace (.context_list r) =>
    some { db with context_list := replace_into_context_list db.context_list r }
  | .insert_or_replace (.audio_list r) => some { db with audio_list := db.audio_list ++ [r] }
  | .insert_or_replace (.audio_fingerprint r) =>
    some { db with audio_fingerprint := db.audio_fingerprint ++ [r] }

/-- Modelled from the spec: `execute(statement)`, that is `db_ctx_exec`. The
statement is recorded and takes the next outcome of `faults`; it returns
`false` and changes no table when that outcome is a failure or the statement
is an error. -/
def db_ctx_exec (db : Db) (sql : Stmt) : Bool × Db :=
  let db1 : Db := { db with faults := db.faults.tail, issued := db.issued ++ [sql] }
  match db.faults.head? with
  | some true => (false, db1)
  | _ =>
    match sql_effect db1 sql with
    | none => (false, db1)
    | some db2 => (true, db2)

/-- Modelled from the spec: `insert(table, record)`, that is `db_ctx_insert`. -/
def db_ctx_insert (db : Db) (j_data : Record) : Bool × Db :=
  db_ctx_exec db (.insert j_data)

/-- Modelled from the spec: `insert_or_replace(table, record)`, that is
`db_ctx_insert_or_replace`. -/
def db_ctx_insert_or_replace (db : Db) (j_data : Record) : Bool × Db :=
  db_ctx_exec db (.insert_or_replace j_data)

/-- Modelled from the spec: rows of `select *, count(*) from <rows> group by
audio_uuid`, one per distinct `audio_uuid` with the size of its group. -/
def count_by_audio_uuid (rows : List FpRow) : List (FpRow × Nat) :=
  (group_by_audio_uuid rows).map
    (fun r => (r, rows.countP (fun s => s.audio_uuid == r.audio_uuid)))

/-- Modelled from the spec: the order `order by count(*) DESC` puts two groups
in ("orderable by match count descending"): the larger count first, and
between equal counts what the store does (`tie_first`). -/
def count_desc (tie_first : String → String → Bool) (a b : FpRow × Nat) : Bool :=
  decide (a.2 > b.2) || (decide (a.2 = b.2) && tie_first a.1.audio_uuid b.1.audio_uuid)

/-- Modelled from the spec: `order by count(*) DESC`. -/
def order_by_count_desc (tie_first : String → String → Bool) (rows : List (FpRow × Nat)) :
    List (FpRow × Nat) :=
  rows.insertionSort (fun a b => count_desc tie_first a b = true)

/-- Modelled from the spec: `db_ctx_query` of
`select *, count(*) from <tablename> group by audio_uuid order by count(*) DESC`
followed by one `db_ctx_get_record`: the first row, or nothing when the table
is missing or empty. -/
def query_top_count (db : Db) (tablename : String) : Option (FpRow × Nat) :=
  match db.scratch tablename with
  | none => none
  | some rows => (order_by_count_desc db.tie_first (count_by_audio_uuid rows)).head?

/-! ## The environment -/

/-- What the code reads from outside the store. `fopen` gives the bytes of a
file (`none`: it cannot be opened), `MD5` is the digest of bytes,
`basename_freed` is what `json_pack` reads at `basename(tmp)` once `tmp` has
been freed (`none`: the bytes found there are no text `json_pack` accepts, and
no record is built; the base name itself when the freed block is intact),
`aubio` decodes bytes into the successive results of `aubio_source_do`
followed by `aubio_pvoc_do` and `aubio_mfcc_do` (the number of samples read
and the 13 values of `mfcc_out`; `none`: the source or the aubio objects
cannot be created), `dB` is `10 * log10(fabs(x))` (`none`: not finite). -/
structure Env where
  fopen : String → Option (List Nat)
  MD5 : List Nat → List Nat
  basename_freed : String → Option String
  aubio : List Nat → Option (List (Nat × (Fin DEF_AUBIO_COEFS → ℚ)))
  dB : ℚ → Option ℚ

/-! ## `fp_handler.c` -/

/-- One digit of the `%02x` rendering. -/
def hex_digit (n : Nat) : Char :=
  Char.ofNat (if n < 10 then 48 + n else 87 + n)

/-- The `%02x` rendering of one byte of the digest. -/
def hex_byte (b : Nat) : List Char :=
  [hex_digit (b / 16 % 16), hex_digit (b % 16)]

/-- The `for` loop of `create_file_hash`: the `MD5_DIGEST_LENGTH` bytes of the
digest, each written with `%02x`. -/
def md5_hex (hash : List Nat) : String :=
  String.mk (((List.range MD5_DIGEST_LENGTH).map (fun i => hex_byte (hash.getD i 0))).flatten)

/-- Function `create_file_hash`: the MD5 of the file in hexadecimal, `none` when
it cannot be opened. -/
def create_file_hash (env : Env) (filename : String) : Option String :=
  (env.fopen filename).map (fun data => md5_hex (env.MD5 data))

/-- Function `replace_string_char`: copy of `str` with every `org` replaced by `target`. -/
def replace_string_char (str : String) (org target : Char) : String :=
  str.map (fun c => if c == org then target else c)

/-- Function `get_audio_list_info`: first row of
`select * from audio_list where uuid = '%s';`. -/
def get_audio_list_info (db : Db) (uuid : String) : Option AudioRow :=
  db.audio_list.find? (where_uuid db uuid)

/-- Function `get_audio_list_info_by_context_and_hash`: first row of
`select * from audio_list where context = '%s' and hash = '%s';`. -/
def get_audio_list_info_by_context_and_hash (db : Db) (context hash : String) :
    Option AudioRow :=
  db.audio_list.find? (where_context_and_hash db context hash)

/-- Function `fp_get_audio_lists_by_contextname`: rows of
`select * from audio_list where context = '%s';`. -/
def fp_get_audio_lists_by_contextname (db : Db) (name : String) : List AudioRow :=
  db.audio_list.filter (where_context db name)

/-- Function `fp_get_context_list_info`: first row of
`select * from context_list where name == '%s';`. -/
def fp_get_context_list_info (db : Db) (name : String) : Option ContextRow :=
  db.context_list.find? (where_name db name)

/-- The `while(1)` loop of `create_audio_fingerprints`: stops at the first read
of zero samples (or the end of the source), numbers the frames with `count`;
`json_object_set_new` sets no key for a value `json_real` refuses. -/
def create_audio_fingerprints_loop (env : Env) (uuid : String) :
    List (Nat × (Fin DEF_AUBIO_COEFS → ℚ)) → Nat → List Frame
  | [], _ => []
  | (reads, mfcc_out) :: rest, count =>
    if reads = 0 then []
    else
      { frame_idx := count, audio_uuid := uuid, max := fun i => env.dB (mfcc_out i) } ::
        create_audio_fingerprints_loop env uuid rest (count + 1)

/-- Function `create_audio_fingerprints`: `none` when the source cannot be
opened or decoded, else the array of frames. -/
def create_audio_fingerprints (env : Env) (filename uuid : String) : Option (List Frame) :=
  match (env.fopen filename).bind env.aubio with
  | none => none
  | some src => some (create_audio_fingerprints_loop env uuid src 0)

/-- Function `fp_delete_audio_list_info`. -/
def fp_delete_audio_list_info (db : Db) (uuid : String) : Bool × Db :=
  match get_audio_list_info db uuid with
  | none => (false, db)
  | some _ =>
    let r1 := db_ctx_exec db (.delete_audio_list uuid)
    if r1.1 == false then (false, r1.2)
    else
      let r2 := db_ctx_exec r1.2 (.delete_audio_fingerprint uuid)
      if r2.1 == false then (false, r2.2)
      else (true, r2.2)

/-- Function `create_audio_list_info`: `1` created, `0` already there, `-1`
error. `name` points into `tmp`, which is freed before `json_pack` reads it;
when `json_pack` gives no record, `db_ctx_insert` has nothing to insert and
returns false. -/
def create_audio_list_info (env : Env) (db : Db) (context filename uuid : String) :
    Int × Db :=
  match create_file_hash env filename with
  | none => (-1, db)
  | some hash =>
    match get_audio_list_info_by_context_and_hash db context hash with
    | some _ => (0, db)
    | none =>
      match env.basename_freed filename with
      | none => (-1, db)
      | some name =>
        let r := db_ctx_insert db
          (.audio_list { uuid := uuid, name := name, context := context, hash := hash })
        if r.1 == false then (-1, r.2) else (1, r.2)

/-- The frame `j_fprint` after `json_object_set_new(j_fprint, "context", ...)`. -/
def fingerprint_row (context : String) (j_fprint : Frame) : FpRow :=
  { context := context, audio_uuid := j_fprint.audio_uuid,
    frame_idx := j_fprint.frame_idx, max := j_fprint.max }

/-- The `json_array_foreach` of `create_audio_fingerprint_info`: a failed insert
is logged and the loop continues. -/
def insert_fingerprints (context : String) : Db → List Frame → Db
  | db, [] => db
  | db, j_fprint :: rest =>
    insert_fingerprints context
      (db_ctx_insert db (.audio_fingerprint (fingerprint_row context j_fprint))).2 rest

/-- Function `create_audio_fingerprint_info`. -/
def create_audio_fingerprint_info (env : Env) (db : Db) (context filename uuid : String) :
    Bool × Db :=
  match create_audio_fingerprints env filename uuid with
  | none => (false, db)
  | some j_fprints => (true, insert_fingerprints context db j_fprints)

/-- Function `fp_craete_audio_list_info`; `uuid` is the result of `fp_generate_uuid`. -/
def fp_craete_audio_list_info (env : Env) (db : Db) (uuid context filename : String) :
    Bool × Db :=
  let r := create_audio_list_info env db context filename uuid
  if r.1 < 0 then (false, r.2)
  else if r.1 == 0 then (true, r.2)
  else
    let r2 := create_audio_fingerprint_info env r.2 context filename uuid
    if r2.1 == false then (false, (fp_delete_audio_list_info r2.2 filename).2)
    else (true, r2.2)

/-- Function `create_temp_search_table`. -/
def create_temp_search_table (db : Db) (tablename : String) : Bool × Db :=
  let r := db_ctx_exec db (.create_table tablename)
  if r.1 == false then (false, r.2) else (true, r.2)

/-- Function `delete_temp_search_table`: the result of the statement is not read. -/
def delete_temp_search_table (db : Db) (tablename : String) : Bool × Db :=
  (true, (db_ctx_exec db (.drop_table tablename)).2)

/-- The integer nearest to `x`, the even one when two are as near. -/
def round_half_even (x : ℚ) : Int :=
  if x - ⌊x⌋ < 1 / 2 then ⌊x⌋
  else if 1 / 2 < x - ⌊x⌋ then ⌊x⌋ + 1
  else if ⌊x⌋ % 2 = 0 then ⌊x⌋ else ⌊x⌋ + 1

/-- The number that `%f` writes for `x`: `x` rounded to six decimals. -/
def render_f (x : ℚ) : ℚ :=
  (round_half_even (x * 1000000) : ℚ) / 1000000

/-- The value of `json_real_value(json_object_get(j_tmp, "max<i+1>"))`: `0.0`
when the key is not set. -/
def json_real_value (j_tmp : Frame) (i : Fin DEF_AUBIO_COEFS) : ℚ :=
  (j_tmp.max i).getD 0

/-- The range condition on column `max(i+1)` around the probe frame `j_tmp`:
both bounds are written with `%f`. -/
def search_cond (j_tmp : Frame) (tole : ℚ) (i : Fin DEF_AUBIO_COEFS) : Cond :=
  { col := i, lo := render_f (json_real_value j_tmp i - tole),
    hi := render_f (json_real_value j_tmp i + tole) }

/-- The `where` clause built for one probe frame in
`fp_search_fingerprint_info`: the condition on `max1`, then one more per `i`
with `1 <= i < coefs`. -/
def search_conds (j_tmp : Frame) (coefs : Int) (tole : ℚ) : List Cond :=
  search_cond j_tmp tole 0 ::
    ((List.finRange DEF_AUBIO_COEFS).filter
      (fun i => decide (1 ≤ i.val) && decide ((i.val : Int) < coefs))).map
      (search_cond j_tmp tole)

/-- The statement built for one probe frame in `fp_search_fingerprint_info`. -/
def search_sql (tablename : String) (j_tmp : Frame) (coefs : Int) (tole : ℚ) : Stmt :=
  .insert_select tablename (search_conds j_tmp coefs tole)

/-- The `json_array_foreach` of `fp_search_fingerprint_info`: one statement per
probe frame, its result is not read. -/
def search_loop (tablename : String) (coefs : Int) (tole : ℚ) : Db → List Frame → Db
  | db, [] => db
  | db, j_tmp :: rest =>
    search_loop tablename coefs tole
      (db_ctx_exec db (search_sql tablename j_tmp coefs tole)).2 rest

/-- The object returned by a successful `fp_search_fingerprint_info`: the
`audio_list` row with `frame_count` and `match_count` added. -/
structure SearchResult where
  uuid : String
  name : String
  context : String
  hash : String
  frame_count : Nat
  match_count : Nat
deriving DecidableEq

/-- The tolerance used by the search: `tole` of `fp_search_fingerprint_info`. -/
def search_tolerance (tolerance : ℚ) : ℚ :=
  if tolerance < 0 then DEF_SEARCH_TOLERANCE else tolerance

/-- The end of `fp_search_fingerprint_info`, after the scratch table is dropped:
nothing when the ranking query gave no row (`j_search == NULL`) or the winning
`audio_uuid` has no `audio_list` row, else that row with the two counts. -/
def search_result (db : Db) (frame_count : Nat) : Option (FpRow × Nat) → Option SearchResult
  | none => none
  | some (row, count) =>
    match get_audio_list_info db row.audio_uuid with
    | none => none
    | some j_res =>
      some
        { uuid := j_res.uuid, name := j_res.name, context := j_res.context,
          hash := j_res.hash, frame_count := frame_count, match_count := count }

/-- The table name built in `fp_search_fingerprint_info`: `temp_` followed by
the generated identifier with `-` replaced by `_`. -/
def scratch_name (uuid : String) : String :=
  "temp_" ++ replace_string_char uuid '-' '_'

/-- Function `fp_search_fingerprint_info`; `uuid` is the result of
`fp_generate_uuid`, used for the scratch table name and the probe frames. -/
def fp_search_fingerprint_info (env : Env) (db : Db) (uuid context filename : String)
    (coefs : Int) (tolerance : ℚ) : Option SearchResult × Db :=
  if coefs < 1 ∨ coefs > DEF_AUBIO_COEFS then (none, db)
  else
    let tole := search_tolerance tolerance
    let tablename := scratch_name uuid
    let r := create_temp_search_table db tablename
    if r.1 == false then (none, r.2)
    else
      match create_audio_fingerprints env filename uuid with
      | none => (none, (delete_temp_search_table r.2 tablename).2)
      | some j_fprints =>
        let frame_count := j_fprints.length
        let db2 := search_loop tablename coefs tole r.2 j_fprints
        let j_search := query_top_count db2 tablename
        let r3 := delete_temp_search_table db2 tablename
        if r3.1 == false then (none, r3.2)
        else (search_result r3.2 frame_count j_search, r3.2)

/-- Function `create_context_list_info`. -/
def create_context_list_info (db : Db) (name directory : String) (replace : Bool) :
    Bool × Db :=
  let r :=
    if replace == false then db_ctx_insert db (.context_list { name := name, directory := directory })
    else db_ctx_insert_or_replace db (.context_list { name := name, directory := directory })
  if r.1 == false then (false, r.2) else (true, r.2)

/-- Function `delete_context_list_info`. -/
def delete_context_list_info (db : Db) (name : String) : Bool × Db :=
  let r := db_ctx_exec db (.delete_context_list name)
  if r.1 == false then (false, r.2) else (true, r.2)

/-- Function `fp_create_context_list_info`. -/
def fp_create_context_list_info (db : Db) (name directory : String) (replace : Bool) :
    Bool × Db :=
  let r := create_context_list_info db name directory replace
  if r.1 == false then (false, r.2) else (true, r.2)

/-- The `json_array_foreach` of `fp_delete_context_list_info`: a record whose
removal fails is logged and skipped. -/
def delete_audio_lists : Db → List AudioRow → Db
  | db, [] => db
  | db, j_audio_list :: rest =>
    delete_audio_lists (fp_delete_audio_list_info db j_audio_list.uuid).2 rest

/-- Function `fp_delete_context_list_info`. -/
def fp_delete_context_list_info (db : Db) (name : String) : Bool × Db :=
  match fp_get_context_list_info db name with
  | none => (false, db)
  | some _ =>
    let db1 := delete_audio_lists db (fp_get_audio_lists_by_contextname db name)
    let r := delete_context_list_info db1 name
    if r.1 == false then (false, r.2) else (true, r.2)

/-! ## Definitions that follow the words of the specification -/

/-- The tolerance box of the specification: the stored frame `s` lies inside
the box of the probe frame `p` when `p.coef[i] - tau <= s.coef[i] <= p.coef[i] + tau`
for every one of the first `C` coefficients (a coefficient that has no value
is in no box). -/
def spec_in_box (p : Frame) (C : Int) (tau : ℚ) (s : FpRow) : Bool :=
  decide (∀ i : Fin DEF_AUBIO_COEFS, (i.val : Int) < C →
    (match p.max i with
      | none => false
      | some v => cond_holds (v - tau) (v + tau) (s.max i)) = true)

/-- The vote count of the specification: the number of probe frames for which
the candidate `w` has at least one stored frame inside the tolerance box. -/
def spec_vote_count (stored : List FpRow) (probe : List Frame) (C : Int) (tau : ℚ)
    (w : String) : Nat :=
  probe.countP (fun p => stored.any (fun s => s.audio_uuid == w && spec_in_box p C tau s))

/-- The tolerance box with the bounds as they are sent: the stored frame `s`
lies inside the sent box of the probe frame `p` when, for every one of the
first `C` coefficients, `s.coef[i]` is a number between `p.coef[i] - tau` and
`p.coef[i] + tau` both rounded to six decimals (a probe coefficient that has no
value counts as 0). -/
def sent_in_box (p : Frame) (C : Int) (tau : ℚ) (s : FpRow) : Bool :=
  decide (∀ i : Fin DEF_AUBIO_COEFS, (i.val : Int) < C →
    cond_holds (render_f (json_real_value p i - tau)) (render_f (json_real_value p i + tau))
      (s.max i) = true)

/-- The vote count with the bounds as they are sent: the number of probe
frames for which the candidate `w` has at least one stored frame inside the
sent box. -/
def sent_vote_count (stored : List FpRow) (probe : List Frame) (C : Int) (tau : ℚ)
    (w : String) : Nat :=
  probe.countP (fun p => stored.any (fun s => s.audio_uuid == w && sent_in_box p C tau s))

/-- The rows a search whose statements all execute gathers in its scratch
table, probe frame after probe frame. -/
def accumulated_rows (stored : List FpRow) (coefs : Int) (tole : ℚ) :
    List Frame → List FpRow
  | [] => []
  | p :: ps =>
    group_by_audio_uuid (stored.filter (where_conds (search_conds p coefs tole))) ++
      accumulated_rows stored coefs tole ps

/-- Statements that only touch scratch tables. -/
def Stmt.on_scratch : Stmt → Bool
  | .create_table _ => true
  | .drop_table _ => true
  | .insert_select _ _ => true
  | _ => false

/-- The pairs of bounds written in a search statement. -/
def Stmt.bounds : Stmt → List (ℚ × ℚ)
  | .insert_select _ conds => conds.map (fun c => (c.lo, c.hi))
  | _ => []

/-- The frames whose statement the store executes, when `faults` are the
outcomes the store has in stock for the successive statements of a loop over
the frames: the inserts of `create_audio_fingerprint_info`, the queries of
`fp_search_fingerprint_info`. -/
def frames_inserted : List Bool → List Frame → List Frame
  | _, [] => []
  | faults, p :: ps =>
    if faults.head? = some true then frames_inserted faults.tail ps
    else p :: frames_inserted faults.tail ps

/-- Whether a statement is `delete from audio_fingerprint` for `uuid`. -/
def Stmt.deletes_fingerprints (uuid : String) : Stmt → Bool
  | .delete_audio_fingerprint u => u == uuid
  | _ => false

/-! ## A concrete catalog

Four files: `clip_a.wav` and `clip_b.wav` hold the same two frames of audio in
different bytes, `clip_c.wav` holds one other frame, `notes.txt` can be read
but is not audio. The files exist under `/srv/audio/` and, those that are
added to the catalog, under a longer directory. -/

/-- Bytes of `clip_a.wav`. -/
def bytes_a : List Nat := [82, 73, 70, 70, 1]

/-- Bytes of `clip_b.wav`. -/
def bytes_b : List Nat := [82, 73, 70, 70, 2]

/-- Bytes of `clip_c.wav`. -/
def bytes_c : List Nat := [82, 73, 70, 70, 3]

/-- Bytes of `notes.txt`. -/
def bytes_txt : List Nat := [104, 105]

/-- Path of `clip_a.wav` in the long directory (94 characters). -/
def path_clip_a : String :=
  "/var/lib/asterisk/third-party/tiresias/reference/recordings/2018-06-10/session-0001/clip_a.wav"

/-- Path of `clip_b.wav` in the long directory. -/
def path_clip_b : String :=
  "/var/lib/asterisk/third-party/tiresias/reference/recordings/2018-06-10/session-0001/clip_b.wav"

/-- Path of `notes.txt` in the long directory. -/
def path_notes : String :=
  "/var/lib/asterisk/third-party/tiresias/reference/recordings/2018-06-10/session-0001/notes.txt"

/-- The environment of the concrete catalog. `dB` is exact on the values 1, 10
and 100 that the decoded frames use and has no finite value at 0. The base
name of a file of the long directory is read intact after the free (it lies
beyond the first 16 bytes of the freed block, the ones the allocator writes
to); that of a file of `/srv/audio/` is not, and gives no text. -/
def demo_env : Env where
  fopen := fun f =>
    if f = "/srv/audio/clip_a.wav" ∨ f = path_clip_a then some bytes_a
    else if f = "/srv/audio/clip_b.wav" ∨ f = path_clip_b then some bytes_b
    else if f = "/srv/audio/clip_c.wav" then some bytes_c
    else if f = "/srv/audio/notes.txt" ∨ f = path_notes then some bytes_txt
    else none
  MD5 := fun b =>
    if b = bytes_a then
      [12, 193, 117, 185, 192, 241, 182, 168, 49, 195, 153, 226, 105, 119, 38, 97]
    else if b = bytes_b then
      [146, 235, 95, 254, 230, 174, 47, 236, 58, 215, 28, 119, 117, 49, 87, 143]
    else if b = bytes_c then
      [74, 138, 8, 240, 157, 55, 183, 55, 149, 100, 144, 56, 64, 139, 95, 51]
    else [73, 246, 138, 92, 132, 147, 236, 44, 11, 244, 137, 130, 28, 33, 252, 59]
  basename_freed := fun f =>
    if f = path_clip_a then some "clip_a.wav"
    else if f = path_clip_b then some "clip_b.wav"
    else if f = path_notes then some "notes.txt"
    else none
  aubio := fun b =>
    if b = bytes_a ∨ b = bytes_b then
      some [(256, fun _ => 10), (256, fun i => if i.val = 0 then 100 else 10), (0, fun _ => 1)]
    else if b = bytes_c then some [(256, fun _ => 1), (0, fun _ => 1)]
    else none
  dB := fun x =>
    if x = 0 then none
    else if x = 1 ∨ x = -1 then some 0 else if x = 10 ∨ x = -10 then some 10
    else if x = 100 ∨ x = -100 then some 20 else some 30

/-- Whether the first text comes before the second in the order of their
characters. -/
def text_lt : List Char → List Char → Bool
  | _, [] => false
  | [], _ :: _ => true
  | a :: as, b :: bs => decide (a.toNat < b.toNat) || (a == b && text_lt as bs)

/-- Whether a `where` text ends with `' or '1'='1'`, the end given to it by a
pasted text that ends with `' or '1'='1`; such a clause is `<comparison> or
'1'='1'` and selects every row. -/
def selects_every_row (text : String) : Bool :=
  ("\x27 or \x271\x27=\x271\x27").data.isSuffixOf text.data

/-- The empty catalog, in a store that reads quotes and orders ties as SQLite
does: a `where` text ending with `' or '1'='1'` selects every row, and of two
groups with the same count the one with the later `audio_uuid` comes first. -/
def empty_db : Db :=
  { context_list := [], audio_list := [], audio_fingerprint := [],
    scratch := fun _ => none, faults := [], issued := [],
    read_context_list := fun text _ => selects_every_row text,
    read_audio_list := fun text _ => selects_every_row text,
    read_audio_fingerprint := fun text _ => selects_every_row text,
    tie_first := fun a b => text_lt b.data a.data }

/-- Identifier generated for the first ingestion. -/
def uuid_1 : String := "1b4e28ba-2fa1-41d2-883f-0016d3cca427"

/-- Identifier generated for the second ingestion. -/
def uuid_2 : String := "6fa459ea-ee8a-4ca4-894e-db77e160355e"

/-- Identifier generated for a search. -/
def uuid_3 : String := "886313e1-3b8a-4372-9b90-0c9aee199e5d"

/-- Identifier generated for an ingestion, one that comes before `uuid_1`. -/
def uuid_4 : String := "0f3a9c52-7d1e-4b6a-9c0d-5e2f8a41b7c3"

/-- A text that closes the quote it is pasted into. -/
def quoted_text : String := "x\x27 or \x271\x27=\x271"

/-- The two frames of `clip_a.wav` and `clip_b.wav` as rows of context
`context` for the record `uuid`. -/
def rows_two_frames (context uuid : String) : List FpRow :=
  [{ context := context, audio_uuid := uuid, frame_idx := 0, max := fun _ => some 10 },
    { context := context, audio_uuid := uuid, frame_idx := 1,
      max := fun i => if i.val = 0 then some 20 else some 10 }]

/-- The catalog holding `clip_b.wav` in context `music`, record `uuid_1`. -/
def db_music_b : Db :=
  { empty_db with
    audio_list :=
      [{ uuid := uuid_1, name := "clip_b.wav", context := "music",
         hash := "92eb5ffee6ae2fec3ad71c777531578f" }],
    audio_fingerprint := rows_two_frames "music" uuid_1 }

/-- The catalog holding `clip_c.wav` in context `music`, record `uuid_1`. -/
def db_music_c : Db :=
  { empty_db with
    audio_list :=
      [{ uuid := uuid_1, name := "clip_c.wav", context := "music",
         hash := "4a8a08f09d37b73795649038408b5f33" }],
    audio_fingerprint :=
      [{ context := "music", audio_uuid := uuid_1, frame_idx := 0, max := fun _ => some 0 }] }

/-- The empty catalog, with a store that executes the next statement and fails
the one after it. -/
def empty_db_second_fails : Db := { empty_db with faults := [false, true] }

/-- The empty catalog, with a store that fails the next statement. -/
def empty_db_first_fails : Db := { empty_db with faults := [true] }

/-- The catalog holding `clip_b.wav` in `music`, with a store that fails the
next statement. -/
def db_music_b_first_fails : Db := { db_music_b with faults := [true] }

/-- The catalog holding `clip_b.wav` in `music`, with a store that executes the
next statement and fails the one after it. -/
def db_music_b_second_fails : Db := { db_music_b with faults := [false, true] }

/-- The catalog holding in `music` the record `uuid_1` of `clip_b.wav` and a
record `uuid_2` whose one frame equals the second frame of `clip_b.wav`. -/
def db_music_pair : Db :=
  { db_music_b with
    audio_list := db_music_b.audio_list ++
      [{ uuid := uuid_2, name := "clip_d.wav", context := "music",
         hash := "8277e0910d750195b448797616e091ad" }],
    audio_fingerprint := db_music_b.audio_fingerprint ++
      [{ context := "music", audio_uuid := uuid_2, frame_idx := 0,
         max := fun i => if i.val = 0 then some 20 else some 10 }] }

/-- The catalog of `db_music_pair`, with a store that executes the next
statement and fails the one after it. -/
def db_music_pair_second_fails : Db := { db_music_pair with faults := [false, true] }

/-- The catalog holding in `music` a record `uuid_1` with two frames, of first
coefficients 9.9999997 and 19.9999997, and a record `uuid_2` with one frame, of
first coefficient 10. -/
def db_music_fine : Db :=
  { empty_db with
    audio_list :=
      [{ uuid := uuid_1, name := "clip_f.wav", context := "music",
         hash := "8fa14cdd754f91cc6554c9e71929cce7" },
        { uuid := uuid_2, name := "clip_g.wav", context := "music",
          hash := "b2f5ff47436671b6e533d8dc3614845d" }],
    audio_fingerprint :=
      [{ context := "music", audio_uuid := uuid_1, frame_idx := 0,
         max := fun i => if i.val = 0 then some (99999997 / 10000000) else some 10 },
        { context := "music", audio_uuid := uuid_1, frame_idx := 1,
          max := fun i => if i.val = 0 then some (199999997 / 10000000) else some 10 },
        { context := "music", audio_uuid := uuid_2, frame_idx := 0, max := fun _ => some 10 }] }

/-- The catalog holding two records of `clip_b.wav` in `music`, `uuid_1` and
`uuid_2`. -/
def db_music_b_twice : Db :=
  { db_music_b with
    audio_list := db_music_b.audio_list ++
      [{ uuid := uuid_2, name := "clip_b.wav", context := "music",
         hash := "92eb5ffee6ae2fec3ad71c777531578f" }],
    audio_fingerprint := db_music_b.audio_fingerprint ++ rows_two_frames "music" uuid_2 }

/-- The catalog holding in `music` one record `uuid_1` with one frame, every
coefficient of which is 10.000001. -/
def db_music_near : Db :=
  { empty_db with
    audio_list :=
      [{ uuid := uuid_1, name := "clip_e.wav", context := "music",
         hash := "e1671797c52e15f763380b45e841ec32" }],
    audio_fingerprint :=
      [{ context := "music", audio_uuid := uuid_1, frame_idx := 0,
         max := fun _ => some (10000001 / 1000000) }] }

/-- The empty catalog after the context `music` was added. -/
def db_context_music : Db :=
  (fp_create_context_list_info empty_db "music" "/srv/audio/music" false).2

/-- The catalog with the contexts `music` and `prompts`, `clip_b.wav` in `music`
(record `uuid_1`) and `clip_c.wav` in `prompts` (record `uuid_2`). -/
def db_two_contexts : Db :=
  { (fp_create_context_list_info db_context_music "prompts" "/srv/audio/prompts" false).2 with
    audio_list :=
      [{ uuid := uuid_1, name := "clip_b.wav", context := "music",
         hash := "92eb5ffee6ae2fec3ad71c777531578f" },
        { uuid := uuid_2, name := "clip_c.wav", context := "prompts",
          hash := "4a8a08f09d37b73795649038408b5f33" }],
    audio_fingerprint := rows_two_frames "music" uuid_1 ++
      [{ context := "prompts", audio_uuid := uuid_2, frame_idx := 0, max := fun _ => some 0 }] }
/-! ## Grouping and ranking -/

theorem countP_group_by_audio_uuid_from (w : String) (rows : List FpRow) :
    ∀ seen : List String,
      (group_by_audio_uuid_from seen rows).countP (fun s => s.audio_uuid == w) =
        if w ∉ seen ∧ ∃ r ∈ rows, r.audio_uuid = w then 1 else 0 := by
  induction rows with
  | nil => intro seen; simp [group_by_audio_uuid_from]
  | cons r rs ih =>
    intro seen
    unfold group_by_audio_uuid_from
    by_cases hr : r.audio_uuid ∈ seen
    · rw [if_pos hr, ih seen]
      by_cases hw : w ∈ seen
      · simp [hw]
      · have hne : r.audio_uuid ≠ w := fun h => hw (h ▸ hr)
        simp [hw, hne]
    · rw [if_neg hr, List.countP_cons, ih (r.audio_uuid :: seen)]
      by_cases hrw : r.audio_uuid = w
      · subst hrw
        simp [hr]
      · have hwr : ¬ w = r.audio_uuid := fun h => hrw h.symm
        by_cases hw : w ∈ seen
        · simp [hw, hrw]
        · simp [hw, hrw, hwr]

theorem countP_group_by_audio_uuid (w : String) (rows : List FpRow) :
    (group_by_audio_uuid rows).countP (fun s => s.audio_uuid == w) =
      if ∃ r ∈ rows, r.audio_uuid = w then 1 else 0 := by
  unfold group_by_audio_uuid
  rw [countP_group_by_audio_uuid_from]
  simp

theorem mem_group_by_audio_uuid_from (rows : List FpRow) :
    ∀ (seen : List String) (r : FpRow), r ∈ group_by_audio_uuid_from seen rows → r ∈ rows := by
  induction rows with
  | nil => intro seen r h; simp [group_by_audio_uuid_from] at h
  | cons a rs ih =>
    intro seen r h
    unfold group_by_audio_uuid_from at h
    by_cases ha : a.audio_uuid ∈ seen
    · rw [if_pos ha] at h
      exact List.mem_cons_of_mem _ (ih seen r h)
    · rw [if_neg ha] at h
      rcases List.mem_cons.mp h with h | h
      · rw [h]; exact List.mem_cons_self _ _
      · exact List.mem_cons_of_mem _ (ih _ r h)

theorem mem_group_by_audio_uuid {rows : List FpRow} {r : FpRow}
    (h : r ∈ group_by_audio_uuid rows) : r ∈ rows :=
  mem_group_by_audio_uuid_from rows [] r h

theorem exists_mem_group_by_audio_uuid {rows : List FpRow} {r : FpRow} (h : r ∈ rows) :
    ∃ g ∈ group_by_audio_uuid rows, g.audio_uuid = r.audio_uuid := by
  have hc := countP_group_by_audio_uuid r.audio_uuid rows
  rw [if_pos ⟨r, h, rfl⟩] at hc
  have hpos : 0 < (group_by_audio_uuid rows).countP (fun s => s.audio_uuid == r.audio_uuid) := by
    omega
  rcases List.countP_pos_iff.mp hpos with ⟨g, hg, hgw⟩
  exact ⟨g, hg, by simpa using hgw⟩

theorem head_orderedInsert_count (tf : String → String → Bool) (a : FpRow × Nat)
    (l : List (FpRow × Nat)) :
    (List.orderedInsert (fun a b : FpRow × Nat => count_desc tf a b = true) a l).head? =
      match l.head? with
      | none => some a
      | some b => if count_desc tf a b = true then some a else some b := by
  cases l with
  | nil => simp
  | cons b l =>
    simp only [List.orderedInsert, List.head?_cons]
    split <;> simp

theorem count_desc_le (tf : String → String → Bool) (a b : FpRow × Nat) :
    (count_desc tf a b = true → b.2 ≤ a.2) ∧ (¬ count_desc tf a b = true → a.2 ≤ b.2) := by
  unfold count_desc
  constructor
  · intro h
    simp only [Bool.or_eq_true, Bool.and_eq_true, decide_eq_true_eq] at h
    rcases h with h | ⟨h, _⟩ <;> omega
  · intro h
    simp only [Bool.or_eq_true, Bool.and_eq_true, decide_eq_true_eq, not_or] at h
    omega

theorem head_order_by_count_desc (tf : String → String → Bool) (rows : List (FpRow × Nat))
    (x : FpRow × Nat) (h : (order_by_count_desc tf rows).head? = some x) :
    x ∈ rows ∧ ∀ y ∈ rows, y.2 ≤ x.2 := by
  induction rows generalizing x with
  | nil => simp [order_by_count_desc] at h
  | cons a l ih =>
    unfold order_by_count_desc at h ih
    rw [List.insertionSort, head_orderedInsert_count] at h
    cases hl : (List.insertionSort (fun a b : FpRow × Nat => count_desc tf a b = true) l).head? with
    | none =>
      rw [hl] at h
      have hnil : l = [] := by
        cases l with
        | nil => rfl
        | cons b l' =>
          exfalso
          rw [List.insertionSort, head_orderedInsert_count] at hl
          split at hl
          · simp at hl
          · split at hl <;> simp at hl
      subst hnil
      simp only [Option.some.injEq] at h
      subst h
      simp
    | some b =>
      rw [hl] at h
      have hb := ih b hl
      simp only at h
      by_cases hab : count_desc tf a b = true
      · rw [if_pos hab] at h
        simp only [Option.some.injEq] at h
        subst h
        refine ⟨List.mem_cons_self _ _, ?_⟩
        intro y hy
        rcases List.mem_cons.mp hy with hy | hy
        · rw [hy]
        · exact le_trans (hb.2 y hy) ((count_desc_le tf a b).1 hab)
      · rw [if_neg hab] at h
        simp only [Option.some.injEq] at h
        subst h
        refine ⟨List.mem_cons_of_mem _ hb.1, ?_⟩
        intro y hy
        rcases List.mem_cons.mp hy with hy | hy
        · rw [hy]; exact (count_desc_le tf a b).2 hab
        · exact hb.2 y hy

theorem head_order_by_count_desc_eq_none (tf : String → String → Bool)
    (rows : List (FpRow × Nat)) (h : (order_by_count_desc tf rows).head? = none) :
    rows = [] := by
  cases rows with
  | nil => rfl
  | cons a l =>
    exfalso
    unfold order_by_count_desc at h
    rw [List.insertionSort, head_orderedInsert_count] at h
    split at h
    · simp at h
    · split at h <;> simp at h

/-! ## Statements and what they change -/

theorem sql_effect_issued_faults {db db2 : Db} {sql : Stmt} (h : sql_effect db sql = some db2) :
    db2.issued = db.issued ∧ db2.faults = db.faults := by
  cases sql with
  | delete_audio_list u => simp [sql_effect] at h; subst h; simp
  | delete_audio_fingerprint u => simp [sql_effect] at h; subst h; simp
  | delete_context_list n => simp [sql_effect] at h; subst h; simp
  | create_table t =>
    simp only [sql_effect] at h
    split at h
    · simp at h
    · simp at h; subst h; simp
  | drop_table t =>
    simp only [sql_effect] at h
    split at h
    · simp at h
    · simp at h; subst h; simp
  | insert_select t conds =>
    simp only [sql_effect] at h
    split at h
    · simp at h
    · simp at h; subst h; simp
  | insert r => cases r <;> (simp [sql_effect] at h; subst h; simp)
  | insert_or_replace r => cases r <;> (simp [sql_effect] at h; subst h; simp)

theorem db_ctx_exec_issued (db : Db) (sql : Stmt) :
    (db_ctx_exec db sql).2.issued = db.issued ++ [sql] := by
  unfold db_ctx_exec
  simp only
  split
  · rfl
  · split
    · rfl
    · rename_i db2 h
      exact (sql_effect_issued_faults h).1

theorem db_ctx_exec_faults (db : Db) (sql : Stmt) :
    (db_ctx_exec db sql).2.faults = db.faults.tail := by
  unfold db_ctx_exec
  simp only
  split
  · rfl
  · split
    · rfl
    · rename_i db2 h
      exact (sql_effect_issued_faults h).2

theorem sql_effect_on_scratch {db db2 : Db} {sql : Stmt} (hs : sql.on_scratch = true)
    (h : sql_effect db sql = some db2) :
    db2.context_list = db.context_list ∧ db2.audio_list = db.audio_list ∧
      db2.audio_fingerprint = db.audio_fingerprint := by
  cases sql with
  | create_table t =>
    simp only [sql_effect] at h
    split at h
    · simp at h
    · simp at h; subst h; simp
  | drop_table t =>
    simp only [sql_effect] at h
    split at h
    · simp at h
    · simp at h; subst h; simp
  | insert_select t conds =>
    simp only [sql_effect] at h
    split at h
    · simp at h
    · simp at h; subst h; simp
  | _ => simp [Stmt.on_scratch] at hs

theorem db_ctx_exec_on_scratch (db : Db) (sql : Stmt) (hs : sql.on_scratch = true) :
    (db_ctx_exec db sql).2.context_list = db.context_list ∧
      (db_ctx_exec db sql).2.audio_list = db.audio_list ∧
      (db_ctx_exec db sql).2.audio_fingerprint = db.audio_fingerprint := by
  unfold db_ctx_exec
  simp only
  split
  · exact ⟨rfl, rfl, rfl⟩
  · split
    · exact ⟨rfl, rfl, rfl⟩
    · rename_i db2 h
      simpa using sql_effect_on_scratch hs h

theorem db_ctx_exec_no_faults (db : Db) (sql : Stmt) (h : db.faults = []) :
    db_ctx_exec db sql =
      match sql_effect { db with issued := db.issued ++ [sql] } sql with
      | none => (false, { db with issued := db.issued ++ [sql] })
      | some db2 => (true, db2) := by
  unfold db_ctx_exec
  cases db with
  | mk c a f s fl i rc ra rf tf =>
    simp only at h
    subst h
    rfl

theorem db_ctx_exec_create_table (db : Db) (t : String) (h : db.faults = [])
    (hs : db.scratch t = none) :
    db_ctx_exec db (.create_table t) =
      (true, { db with issued := db.issued ++ [.create_table t],
                       scratch := Function.update db.scratch t (some []) }) := by
  rw [db_ctx_exec_no_faults db _ h]
  simp [sql_effect, hs]

theorem db_ctx_exec_create_table_exists (db : Db) (t : String) (rows : List FpRow)
    (hs : db.scratch t = some rows) :
    (db_ctx_exec db (.create_table t)).1 = false := by
  unfold db_ctx_exec
  simp only
  split
  · rfl
  · simp [sql_effect, hs]

theorem db_ctx_exec_insert_select (db : Db) (t : String) (conds : List Cond)
    (rows : List FpRow) (h : db.faults = []) (hs : db.scratch t = some rows) :
    db_ctx_exec db (.insert_select t conds) =
      (true, { db with issued := db.issued ++ [.insert_select t conds],
                       scratch := Function.update db.scratch t
                         (some (rows ++ group_by_audio_uuid
                           (db.audio_fingerprint.filter (where_conds conds)))) }) := by
  rw [db_ctx_exec_no_faults db _ h]
  simp [sql_effect, hs]

theorem db_ctx_exec_drop_table (db : Db) (t : String) (rows : List FpRow)
    (h : db.faults = []) (hs : db.scratch t = some rows) :
    db_ctx_exec db (.drop_table t) =
      (true, { db with issued := db.issued ++ [.drop_table t],
                       scratch := Function.update db.scratch t none }) := by
  rw [db_ctx_exec_no_faults db _ h]
  simp [sql_effect, hs]

theorem search_loop_no_faults (t : String) (coefs : Int) (tole : ℚ) (probe : List Frame) :
    ∀ (db : Db) (acc : List FpRow), db.faults = [] → db.scratch t = some acc →
      search_loop t coefs tole db probe =
        { db with
          issued := db.issued ++ probe.map (fun p => search_sql t p coefs tole),
          scratch := Function.update db.scratch t
            (some (acc ++ accumulated_rows db.audio_fingerprint coefs tole probe)) } := by
  induction probe with
  | nil =>
    intro db acc _ hs
    cases db with
    | mk c a f s fl i rc ra rf tf =>
      simp only at hs
      simp [search_loop, accumulated_rows, ← hs]
  | cons p ps ih =>
    intro db acc hf hs
    simp only [search_loop, search_sql]
    rw [db_ctx_exec_insert_select db t _ acc hf hs]
    simp only
    refine (ih
      { db with
        issued := db.issued ++ [.insert_select t (search_conds p coefs tole)],
        scratch := Function.update db.scratch t
          (some (acc ++ group_by_audio_uuid
            (db.audio_fingerprint.filter (where_conds (search_conds p coefs tole))))) }
      (acc ++ group_by_audio_uuid
        (db.audio_fingerprint.filter (where_conds (search_conds p coefs tole)))) hf
      (by simp)).trans ?_
    simp [accumulated_rows, search_sql, List.append_assoc]

/-! ## Votes -/

theorem where_conds_search_conds (p : Frame) (C : Int) (tau : ℚ) (s : FpRow) (hC : 1 ≤ C) :
    where_conds (search_conds p C tau) s = sent_in_box p C tau s := by
  rw [Bool.eq_iff_iff]
  simp only [where_conds, search_conds, sent_in_box, List.all_cons,
    List.all_eq_true, List.mem_map, List.mem_filter, List.mem_finRange, true_and,
    Bool.and_eq_true, decide_eq_true_eq]
  constructor
  · rintro ⟨h0, h⟩ i hi
    by_cases hi0 : i = 0
    · subst hi0; exact h0
    · have h1 : 1 ≤ i.val := by
        have : i.val ≠ 0 := fun h => hi0 (Fin.ext h)
        omega
      exact h (search_cond p tau i) ⟨i, ⟨h1, hi⟩, rfl⟩
  · intro h
    refine ⟨h 0 (by simpa using hC), ?_⟩
    rintro c ⟨i, ⟨_, hi⟩, rfl⟩
    exact h i hi

theorem countP_accumulated_rows (stored : List FpRow) (C : Int) (tau : ℚ) (w : String)
    (hC : 1 ≤ C) (probe : List Frame) :
    (accumulated_rows stored C tau probe).countP (fun s => s.audio_uuid == w) =
      sent_vote_count stored probe C tau w := by
  induction probe with
  | nil => simp [accumulated_rows, sent_vote_count]
  | cons p ps ih =>
    simp only [accumulated_rows, List.countP_append, ih, sent_vote_count, List.countP_cons,
      countP_group_by_audio_uuid]
    rw [Nat.add_comm]
    congr 1
    have hiff : (∃ r ∈ stored.filter (where_conds (search_conds p C tau)), r.audio_uuid = w) ↔
        (stored.any (fun s => s.audio_uuid == w && sent_in_box p C tau s) = true) := by
      simp only [List.mem_filter, List.any_eq_true, Bool.and_eq_true, beq_iff_eq,
        where_conds_search_conds p C tau _ hC]
      constructor
      · rintro ⟨r, ⟨hr, hb⟩, hw⟩; exact ⟨r, hr, hw, hb⟩
      · rintro ⟨r, hr, hw, hb⟩; exact ⟨r, ⟨hr, hb⟩, hw⟩
    by_cases h : stored.any (fun s => s.audio_uuid == w && sent_in_box p C tau s) = true
    · rw [if_pos (hiff.mpr h), if_pos h]
    · rw [if_neg (fun h2 => h (hiff.mp h2)), if_neg h]

/-! ## The search when every statement executes -/

theorem get_audio_list_info_congr (db db2 : Db) (uuid : String)
    (h1 : db2.audio_list = db.audio_list) (h2 : db2.read_audio_list = db.read_audio_list) :
    get_audio_list_info db2 uuid = get_audio_list_info db uuid := by
  unfold get_audio_list_info where_uuid
  rw [h1, h2]

theorem search_result_congr (db db2 : Db) (n : Nat) (j : Option (FpRow × Nat))
    (h1 : db2.audio_list = db.audio_list) (h2 : db2.read_audio_list = db.read_audio_list) :
    search_result db2 n j = search_result db n j := by
  cases j with
  | none => rfl
  | some x =>
    obtain ⟨row, count⟩ := x
    simp only [search_result, get_audio_list_info_congr db db2 _ h1 h2]

theorem fp_search_fingerprint_info_no_faults (env : Env) (db : Db)
    (uuid context filename : String) (coefs : Int) (tolerance : ℚ) (probe : List Frame)
    (hf : db.faults = []) (hfresh : db.scratch (scratch_name uuid) = none)
    (hC : 1 ≤ coefs ∧ coefs ≤ 13)
    (hex : create_audio_fingerprints env filename uuid = some probe) :
    fp_search_fingerprint_info env db uuid context filename coefs tolerance =
      (search_result db probe.length
          (order_by_count_desc db.tie_first (count_by_audio_uuid
            (accumulated_rows db.audio_fingerprint coefs (search_tolerance tolerance)
              probe))).head?,
        { db with
          issued := db.issued ++ (Stmt.create_table (scratch_name uuid) ::
            (probe.map (fun p => search_sql (scratch_name uuid) p coefs
              (search_tolerance tolerance)) ++ [Stmt.drop_table (scratch_name uuid)])) }) := by
  have hC2 : ¬ (coefs < 1 ∨ coefs > (DEF_AUBIO_COEFS : Int)) := by
    simp only [DEF_AUBIO_COEFS]; omega
  have h1 := db_ctx_exec_create_table db _ hf hfresh
  have h2 := search_loop_no_faults (scratch_name uuid) coefs (search_tolerance tolerance) probe
    { db with issued := db.issued ++ [.create_table (scratch_name uuid)],
              scratch := Function.update db.scratch (scratch_name uuid) (some []) } [] hf
    (by simp)
  simp only [List.nil_append, Function.update_idem] at h2
  have h3 := db_ctx_exec_drop_table
    { db with
      issued := db.issued ++ [.create_table (scratch_name uuid)] ++
        probe.map (fun p => search_sql (scratch_name uuid) p coefs (search_tolerance tolerance)),
      scratch := Function.update db.scratch (scratch_name uuid)
        (some (accumulated_rows db.audio_fingerprint coefs (search_tolerance tolerance) probe)) }
    (scratch_name uuid)
    (accumulated_rows db.audio_fingerprint coefs (search_tolerance tolerance) probe) hf
    (by simp)
  simp only [Function.update_idem] at h3
  have hupd : Function.update db.scratch (scratch_name uuid) none = db.scratch := by
    rw [← hfresh]; exact Function.update_eq_self _ _
  rw [hupd] at h3
  unfold fp_search_fingerprint_info
  rw [if_neg hC2]
  simp only [create_temp_search_table, delete_temp_search_table, h1, hex]
  simp only [beq_self_eq_true, Bool.true_eq_false, Bool.false_eq_true, if_false, h2,
    beq_iff_eq, h3, query_top_count, Function.update_same]
  exact Prod.ext (search_result_congr db _ _ _ rfl rfl) (by simp [List.append_assoc])

/-! ## Adding a clip -/

theorem db_ctx_exec_insert_audio_list (db : Db) (r : AudioRow) (h : db.faults = []) :
    db_ctx_exec db (.insert (.audio_list r)) =
      (true, { db with issued := db.issued ++ [.insert (.audio_list r)],
                       audio_list := db.audio_list ++ [r] }) := by
  rw [db_ctx_exec_no_faults db _ h]
  simp [sql_effect]

theorem db_ctx_exec_insert_audio_fingerprint (db : Db) (r : FpRow) (h : db.faults = []) :
    db_ctx_exec db (.insert (.audio_fingerprint r)) =
      (true, { db with issued := db.issued ++ [.insert (.audio_fingerprint r)],
                       audio_fingerprint := db.audio_fingerprint ++ [r] }) := by
  rw [db_ctx_exec_no_faults db _ h]
  simp [sql_effect]

theorem insert_fingerprints_no_faults (context : String) (frames : List Frame) :
    ∀ db : Db, db.faults = [] →
      insert_fingerprints context db frames =
        { db with
          issued := db.issued ++
            frames.map (fun p => Stmt.insert (.audio_fingerprint (fingerprint_row context p))),
          audio_fingerprint := db.audio_fingerprint ++ frames.map (fingerprint_row context) } := by
  induction frames with
  | nil => intro db _; simp [insert_fingerprints]
  | cons p ps ih =>
    intro db hf
    simp only [insert_fingerprints, db_ctx_insert]
    rw [db_ctx_exec_insert_audio_fingerprint db _ hf]
    refine (ih
      { db with issued := db.issued ++ [.insert (.audio_fingerprint (fingerprint_row context p))],
                audio_fingerprint := db.audio_fingerprint ++ [fingerprint_row context p] }
      hf).trans ?_
    simp [List.append_assoc]

theorem fp_craete_audio_list_info_created (env : Env) (db : Db)
    (uuid context filename hash name : String) (frames : List Frame)
    (hf : db.faults = []) (hh : create_file_hash env filename = some hash)
    (hnew : get_audio_list_info_by_context_and_hash db context hash = none)
    (hname : env.basename_freed filename = some name)
    (hex : create_audio_fingerprints env filename uuid = some frames) :
    fp_craete_audio_list_info env db uuid context filename =
      (true,
        { db with
          issued := db.issued ++
            (Stmt.insert (.audio_list
                { uuid := uuid, name := name, context := context, hash := hash }) ::
              frames.map (fun p => Stmt.insert (.audio_fingerprint (fingerprint_row context p)))),
          audio_list := db.audio_list ++
            [{ uuid := uuid, name := name, context := context, hash := hash }],
          audio_fingerprint := db.audio_fingerprint ++ frames.map (fingerprint_row context) }) := by
  have h1 := db_ctx_exec_insert_audio_list db
    { uuid := uuid, name := name, context := context, hash := hash } hf
  have h2 := insert_fingerprints_no_faults context frames
    { db with
      issued := db.issued ++
        [.insert (.audio_list { uuid := uuid, name := name, context := context, hash := hash })],
      audio_list := db.audio_list ++
        [{ uuid := uuid, name := name, context := context, hash := hash }] } hf
  unfold fp_craete_audio_list_info create_audio_list_info create_audio_fingerprint_info
  simp only [hh, hnew, hname, db_ctx_insert]
  simp only [h1, hex]
  simp [h2, List.append_assoc]

theorem fp_craete_audio_list_info_exists (env : Env) (db : Db)
    (uuid context filename hash : String) (r : AudioRow)
    (hh : create_file_hash env filename = some hash)
    (hold : get_audio_list_info_by_context_and_hash db context hash = some r) :
    fp_craete_audio_list_info env db uuid context filename = (true, db) := by
  unfold fp_craete_audio_list_info create_audio_list_info
  simp [hh, hold]

/-! ## The store under arbitrary outcomes -/

theorem db_ctx_exec_cases (db : Db) (sql : Stmt) :
    ((db_ctx_exec db sql).1 = false ∧
        (db_ctx_exec db sql).2 =
          { db with faults := db.faults.tail, issued := db.issued ++ [sql] }) ∨
      ((db_ctx_exec db sql).1 = true ∧
        sql_effect { db with faults := db.faults.tail, issued := db.issued ++ [sql] } sql =
          some (db_ctx_exec db sql).2) := by
  unfold db_ctx_exec
  simp only
  split
  · exact Or.inl ⟨rfl, rfl⟩
  · split
    · exact Or.inl ⟨rfl, rfl⟩
    · rename_i db2 h
      exact Or.inr ⟨rfl, h⟩

theorem db_ctx_exec_of_fault (db : Db) (sql : Stmt) (h : db.faults.head? = some true) :
    db_ctx_exec db sql =
      (false, { db with faults := db.faults.tail, issued := db.issued ++ [sql] }) := by
  unfold db_ctx_exec
  simp [h]

theorem db_ctx_exec_of_effect (db db2 : Db) (sql : Stmt) (h : db.faults.head? ≠ some true)
    (he : sql_effect { db with faults := db.faults.tail, issued := db.issued ++ [sql] } sql =
      some db2) :
    db_ctx_exec db sql = (true, db2) := by
  unfold db_ctx_exec
  cases hfl : db.faults.head? with
  | none => simp [he]
  | some b =>
    cases b with
    | true => exact absurd hfl h
    | false => simp [he]

theorem db_ctx_exec_create_table_true (db : Db) (t : String)
    (h : (db_ctx_exec db (.create_table t)).1 = true) :
    db.scratch t = none ∧ (db_ctx_exec db (.create_table t)).2.scratch t = some [] := by
  rcases db_ctx_exec_cases db (.create_table t) with ⟨h1, _⟩ | ⟨_, h2⟩
  · rw [h1] at h; exact absurd h (by simp)
  · simp only [sql_effect] at h2
    split at h2
    · simp at h2
    · rename_i hnone
      simp only [Option.some.injEq] at h2
      rw [← h2]
      exact ⟨hnone, by simp⟩

theorem db_ctx_exec_insert_select_scratch (db : Db) (t : String) (conds : List Cond) :
    (db_ctx_exec db (.insert_select t conds)).2.scratch t = db.scratch t ∨
      ∃ rows, db.scratch t = some rows ∧
        (db_ctx_exec db (.insert_select t conds)).2.scratch t =
          some (rows ++ group_by_audio_uuid (db.audio_fingerprint.filter (where_conds conds))) := by
  rcases db_ctx_exec_cases db (.insert_select t conds) with ⟨_, h1⟩ | ⟨_, h2⟩
  · left; rw [h1]
  · simp only [sql_effect] at h2
    split at h2
    · simp at h2
    · rename_i rows hrows
      simp only [Option.some.injEq] at h2
      right
      refine ⟨rows, hrows, ?_⟩
      rw [← h2]
      simp

theorem search_loop_issued (t : String) (coefs : Int) (tole : ℚ) (probe : List Frame) :
    ∀ db : Db, (search_loop t coefs tole db probe).issued =
      db.issued ++ probe.map (fun p => search_sql t p coefs tole) := by
  induction probe with
  | nil => intro db; simp [search_loop]
  | cons p ps ih =>
    intro db
    simp only [search_loop]
    rw [ih, db_ctx_exec_issued]
    simp [List.append_assoc]

theorem search_loop_tables (t : String) (coefs : Int) (tole : ℚ) (probe : List Frame) :
    ∀ db : Db, (search_loop t coefs tole db probe).context_list = db.context_list ∧
      (search_loop t coefs tole db probe).audio_list = db.audio_list ∧
      (search_loop t coefs tole db probe).audio_fingerprint = db.audio_fingerprint := by
  induction probe with
  | nil => intro db; simp [search_loop]
  | cons p ps ih =>
    intro db
    simp only [search_loop]
    have h1 := ih (db_ctx_exec db (search_sql t p coefs tole)).2
    have h2 := db_ctx_exec_on_scratch db (search_sql t p coefs tole) rfl
    exact ⟨h1.1.trans h2.1, h1.2.1.trans h2.2.1, h1.2.2.trans h2.2.2⟩

theorem search_loop_scratch_empty (t : String) (coefs : Int) (tole : ℚ) (probe : List Frame) :
    ∀ db : Db, db.scratch t = some [] →
      (∀ p ∈ probe, ∀ r ∈ db.audio_fingerprint,
        where_conds (search_conds p coefs tole) r = false) →
      (search_loop t coefs tole db probe).scratch t = some [] := by
  induction probe with
  | nil => intro db h _; simpa [search_loop] using h
  | cons p ps ih =>
    intro db h hbox
    simp only [search_loop]
    apply ih
    · have hfilter : db.audio_fingerprint.filter (where_conds (search_conds p coefs tole)) = [] := by
        rw [List.filter_eq_nil_iff]
        intro r hr
        simp [hbox p (List.mem_cons_self _ _) r hr]
      rcases db_ctx_exec_insert_select_scratch db t (search_conds p coefs tole) with h1 | ⟨rows, hr, h1⟩
      · rw [search_sql, h1]; exact h
      · rw [search_sql, h1, hfilter]
        rw [h] at hr
        simp only [Option.some.injEq] at hr
        subst hr
        simp [group_by_audio_uuid, group_by_audio_uuid_from]
    · intro q hq r hr
      rw [(db_ctx_exec_on_scratch db (search_sql t p coefs tole) rfl).2.2] at hr
      exact hbox q (List.mem_cons_of_mem _ hq) r hr

/-! ## The shape of a search -/

theorem fp_search_fingerprint_info_invalid (env : Env) (db : Db)
    (uuid context filename : String) (coefs : Int) (tolerance : ℚ)
    (hC : coefs < 1 ∨ coefs > 13) :
    fp_search_fingerprint_info env db uuid context filename coefs tolerance = (none, db) := by
  unfold fp_search_fingerprint_info
  rw [if_pos (by simpa [DEF_AUBIO_COEFS] using hC)]

theorem fp_search_fingerprint_info_valid (env : Env) (db : Db)
    (uuid context filename : String) (coefs : Int) (tolerance : ℚ)
    (hC : 1 ≤ coefs ∧ coefs ≤ 13) :
    fp_search_fingerprint_info env db uuid context filename coefs tolerance =
      if (db_ctx_exec db (.create_table (scratch_name uuid))).1 = false then
        (none, (db_ctx_exec db (.create_table (scratch_name uuid))).2)
      else
        match create_audio_fingerprints env filename uuid with
        | none =>
          (none, (db_ctx_exec (db_ctx_exec db (.create_table (scratch_name uuid))).2
            (.drop_table (scratch_name uuid))).2)
        | some probe =>
          (search_result
              (db_ctx_exec (search_loop (scratch_name uuid) coefs (search_tolerance tolerance)
                (db_ctx_exec db (.create_table (scratch_name uuid))).2 probe)
                (.drop_table (scratch_name uuid))).2
              probe.length
              (query_top_count (search_loop (scratch_name uuid) coefs (search_tolerance tolerance)
                (db_ctx_exec db (.create_table (scratch_name uuid))).2 probe)
                (scratch_name uuid)),
            (db_ctx_exec (search_loop (scratch_name uuid) coefs (search_tolerance tolerance)
                (db_ctx_exec db (.create_table (scratch_name uuid))).2 probe)
                (.drop_table (scratch_name uuid))).2) := by
  have hC2 : ¬ (coefs < 1 ∨ coefs > (DEF_AUBIO_COEFS : Int)) := by
    simp only [DEF_AUBIO_COEFS]; omega
  unfold fp_search_fingerprint_info
  rw [if_neg hC2]
  simp only [create_temp_search_table, delete_temp_search_table]
  cases hct : (db_ctx_exec db (.create_table (scratch_name uuid))).1 with
  | false => simp
  | true =>
    cases hex : create_audio_fingerprints env filename uuid with
    | none => simp
    | some probe => simp

/-! ## The search under arbitrary outcomes -/

theorem sql_effect_oracles {db db2 : Db} {sql : Stmt} (h : sql_effect db sql = some db2) :
    db2.read_context_list = db.read_context_list ∧ db2.read_audio_list = db.read_audio_list ∧
      db2.read_audio_fingerprint = db.read_audio_fingerprint ∧ db2.tie_first = db.tie_first := by
  cases sql with
  | delete_audio_list u => simp [sql_effect] at h; subst h; simp
  | delete_audio_fingerprint u => simp [sql_effect] at h; subst h; simp
  | delete_context_list n => simp [sql_effect] at h; subst h; simp
  | create_table t =>
    simp only [sql_effect] at h
    split at h
    · simp at h
    · simp at h; subst h; simp
  | drop_table t =>
    simp only [sql_effect] at h
    split at h
    · simp at h
    · simp at h; subst h; simp
  | insert_select t conds =>
    simp only [sql_effect] at h
    split at h
    · simp at h
    · simp at h; subst h; simp
  | insert r => cases r <;> (simp [sql_effect] at h; subst h; simp)
  | insert_or_replace r => cases r <;> (simp [sql_effect] at h; subst h; simp)

theorem db_ctx_exec_oracles (db : Db) (sql : Stmt) :
    (db_ctx_exec db sql).2.read_context_list = db.read_context_list ∧
      (db_ctx_exec db sql).2.read_audio_list = db.read_audio_list ∧
      (db_ctx_exec db sql).2.read_audio_fingerprint = db.read_audio_fingerprint ∧
      (db_ctx_exec db sql).2.tie_first = db.tie_first := by
  rcases db_ctx_exec_cases db sql with ⟨_, h⟩ | ⟨_, h⟩
  · rw [h]; exact ⟨rfl, rfl, rfl, rfl⟩
  · have h2 := sql_effect_oracles h
    exact h2

theorem search_loop_oracles (t : String) (coefs : Int) (tole : ℚ) (probe : List Frame) :
    ∀ db : Db, (search_loop t coefs tole db probe).read_audio_list = db.read_audio_list ∧
      (search_loop t coefs tole db probe).tie_first = db.tie_first := by
  induction probe with
  | nil => intro db; simp [search_loop]
  | cons p ps ih =>
    intro db
    simp only [search_loop]
    have h1 := ih (db_ctx_exec db (search_sql t p coefs tole)).2
    have h2 := db_ctx_exec_oracles db (search_sql t p coefs tole)
    exact ⟨h1.1.trans h2.2.1, h1.2.trans h2.2.2.2⟩

theorem frames_inserted_nil (probe : List Frame) : frames_inserted [] probe = probe := by
  induction probe with
  | nil => rfl
  | cons p ps ih => simp [frames_inserted, ih]

theorem frames_inserted_length_le (probe : List Frame) :
    ∀ faults : List Bool, (frames_inserted faults probe).length ≤ probe.length := by
  induction probe with
  | nil => intro faults; simp [frames_inserted]
  | cons p ps ih =>
    intro faults
    simp only [frames_inserted]
    split
    · have := ih faults.tail
      simp only [List.length_cons]
      omega
    · have := ih faults.tail
      simp only [List.length_cons]
      omega

theorem frames_inserted_forall₂ (R : Frame → Frame → Prop) (probe probe2 : List Frame)
    (h : List.Forall₂ R probe probe2) :
    ∀ faults : List Bool,
      List.Forall₂ R (frames_inserted faults probe) (frames_inserted faults probe2) := by
  induction h with
  | nil => intro faults; simp [frames_inserted]
  | cons hab _ ih =>
    intro faults
    simp only [frames_inserted]
    split
    · exact ih faults.tail
    · exact List.Forall₂.cons hab (ih faults.tail)

/-- The rows a search gathers in its scratch table, whatever the outcomes of
its statements: those of the probe frames whose statement the store executes. -/
theorem search_loop_scratch (t : String) (coefs : Int) (tole : ℚ) (probe : List Frame) :
    ∀ (db : Db) (acc : List FpRow), db.scratch t = some acc →
      (search_loop t coefs tole db probe).scratch t =
        some (acc ++ accumulated_rows db.audio_fingerprint coefs tole
          (frames_inserted db.faults probe)) := by
  induction probe with
  | nil => intro db acc hs; simp [search_loop, frames_inserted, accumulated_rows, hs]
  | cons p ps ih =>
    intro db acc hs
    simp only [search_loop, search_sql, frames_inserted]
    by_cases h : db.faults.head? = some true
    · rw [db_ctx_exec_of_fault db _ h, if_pos h]
      exact ih
        { db with
          faults := db.faults.tail,
          issued := db.issued ++ [.insert_select t (search_conds p coefs tole)] } acc hs
    · rw [db_ctx_exec_of_effect db
        { db with
          faults := db.faults.tail,
          issued := db.issued ++ [.insert_select t (search_conds p coefs tole)],
          scratch := Function.update db.scratch t
            (some (acc ++ group_by_audio_uuid
              (db.audio_fingerprint.filter (where_conds (search_conds p coefs tole))))) }
        (.insert_select t (search_conds p coefs tole)) h (by simp [sql_effect, hs]), if_neg h]
      have := ih
        { db with
          faults := db.faults.tail,
          issued := db.issued ++ [.insert_select t (search_conds p coefs tole)],
          scratch := Function.update db.scratch t
            (some (acc ++ group_by_audio_uuid
              (db.audio_fingerprint.filter (where_conds (search_conds p coefs tole))))) }
        (acc ++ group_by_audio_uuid
          (db.audio_fingerprint.filter (where_conds (search_conds p coefs tole)))) (by simp)
      rw [this]
      simp [accumulated_rows, List.append_assoc]

/-! ## Claims on the search -/

/-- Every statement a search issues, after those already recorded. -/
theorem fp_search_fingerprint_info_issued (env : Env) (db : Db)
    (uuid context filename : String) (coefs : Int) (tolerance : ℚ)
    (hC : 1 ≤ coefs ∧ coefs ≤ 13) :
    ∃ rest : List Stmt,
      (fp_search_fingerprint_info env db uuid context filename coefs tolerance).2.issued =
        db.issued ++ Stmt.create_table (scratch_name uuid) :: rest ∧
      ∀ sql ∈ rest, sql = Stmt.drop_table (scratch_name uuid) ∨
        ∃ p ∈ (create_audio_fingerprints env filename uuid).getD [],
          sql = search_sql (scratch_name uuid) p coefs (search_tolerance tolerance) := by
  rw [fp_search_fingerprint_info_valid env db uuid context filename coefs tolerance hC]
  split
  · exact ⟨[], by simp [db_ctx_exec_issued], by simp⟩
  · cases hex : create_audio_fingerprints env filename uuid with
    | none =>
      refine ⟨[.drop_table (scratch_name uuid)], by simp [db_ctx_exec_issued], ?_⟩
      intro sql hsql
      left
      simpa using hsql
    | some probe =>
      refine ⟨probe.map (fun p => search_sql (scratch_name uuid) p coefs
        (search_tolerance tolerance)) ++ [.drop_table (scratch_name uuid)],
        by simp [db_ctx_exec_issued, search_loop_issued], ?_⟩
      intro sql hsql
      rcases List.mem_append.mp hsql with h | h
      · right
        rcases List.mem_map.mp h with ⟨p, hp, rfl⟩
        exact ⟨p, by simpa using hp, rfl⟩
      · left
        simpa using h

/-- C5: a coefficient count below 1 or above 13 makes `fp_search_fingerprint_info`
return nothing and leave the store exactly as it was (no statement issued, no
scratch table, whatever the file and the environment are); for a count from 1
to 13 the check lets the call through: its first statement, the creation of the
scratch table, is issued. -/
theorem C5_coefs_out_of_range (env : Env) (db : Db) (uuid context filename : String)
    (coefs : Int) (tolerance : ℚ) :
    ((coefs < 1 ∨ coefs > 13) →
      fp_search_fingerprint_info env db uuid context filename coefs tolerance = (none, db)) ∧
    ((1 ≤ coefs ∧ coefs ≤ 13) →
      ∃ rest : List Stmt,
        (fp_search_fingerprint_info env db uuid context filename coefs tolerance).2.issued =
          db.issued ++ Stmt.create_table (scratch_name uuid) :: rest) := by
  constructor
  · exact fp_search_fingerprint_info_invalid env db uuid context filename coefs tolerance
  · intro hC
    rcases fp_search_fingerprint_info_issued env db uuid context filename coefs tolerance hC
      with ⟨rest, h, _⟩
    exact ⟨rest, h⟩

/-- Witness of C5 at counts 0, 14 and 13 on the concrete catalog. -/
theorem C5_coefs_out_of_range_witness :
    fp_search_fingerprint_info demo_env db_music_b uuid_3 "music" "/srv/audio/clip_a.wav" 0 0 =
        (none, db_music_b) ∧
      fp_search_fingerprint_info demo_env db_music_b uuid_3 "music" "/srv/audio/clip_a.wav" 14 0 =
        (none, db_music_b) ∧
      ∃ rest : List Stmt,
        (fp_search_fingerprint_info demo_env db_music_b uuid_3 "music"
          "/srv/audio/clip_a.wav" 13 0).2.issued =
          db_music_b.issued ++ Stmt.create_table (scratch_name uuid_3) :: rest :=
  ⟨(C5_coefs_out_of_range demo_env db_music_b uuid_3 "music" "/srv/audio/clip_a.wav" 0 0).1
      (by decide),
    (C5_coefs_out_of_range demo_env db_music_b uuid_3 "music" "/srv/audio/clip_a.wav" 14 0).1
      (by decide),
    (C5_coefs_out_of_range demo_env db_music_b uuid_3 "music" "/srv/audio/clip_a.wav" 13 0).2
      (by decide)⟩

theorem search_tolerance_of_neg (tolerance : ℚ) (h : tolerance < 0) :
    search_tolerance tolerance = 1 / 1000 := by
  simp [search_tolerance, h, DEF_SEARCH_TOLERANCE]

theorem search_tolerance_of_nonneg (tolerance : ℚ) (h : 0 ≤ tolerance) :
    search_tolerance tolerance = tolerance := by
  simp [search_tolerance, not_lt.mpr h]

theorem fp_search_fingerprint_info_tolerance (env : Env) (db : Db)
    (uuid context filename : String) (coefs : Int) (t1 t2 : ℚ)
    (h : search_tolerance t1 = search_tolerance t2) :
    fp_search_fingerprint_info env db uuid context filename coefs t1 =
      fp_search_fingerprint_info env db uuid context filename coefs t2 := by
  unfold fp_search_fingerprint_info
  rw [h]

theorem search_conds_bounds (p : Frame) (coefs : Int) (tole : ℚ) :
    ∀ c ∈ search_conds p coefs tole,
      c.lo = render_f (json_real_value p c.col - tole) ∧
        c.hi = render_f (json_real_value p c.col + tole) := by
  intro c hc
  simp only [search_conds, List.mem_cons, List.mem_map] at hc
  rcases hc with rfl | ⟨i, _, rfl⟩ <;> simp [search_cond]

/-- C6 (amended): a negative tolerance is replaced by 0.001, so the call returns
exactly what it returns for the tolerance 0.001; for a tolerance `tau >= 0`,
every range condition of every query the call issues has as bounds
`p.coef - tau` and `p.coef + tau`, each rounded to six decimals, around a
coefficient of a probe frame `p`. -/
theorem C6_negative_tolerance_replaced (env : Env) (db : Db)
    (uuid context filename : String) (coefs : Int) (tolerance : ℚ)
    (hC : 1 ≤ coefs ∧ coefs ≤ 13) :
    (tolerance < 0 →
      fp_search_fingerprint_info env db uuid context filename coefs tolerance =
        fp_search_fingerprint_info env db uuid context filename coefs (1 / 1000)) ∧
    (0 ≤ tolerance →
      ∃ stmts : List Stmt,
        (fp_search_fingerprint_info env db uuid context filename coefs tolerance).2.issued =
          db.issued ++ stmts ∧
        ∀ tablename conds, Stmt.insert_select tablename conds ∈ stmts →
          ∃ p ∈ (create_audio_fingerprints env filename uuid).getD [],
            ∀ c ∈ conds,
              c.lo = render_f (json_real_value p c.col - tolerance) ∧
                c.hi = render_f (json_real_value p c.col + tolerance)) := by
  constructor
  · intro hneg
    apply fp_search_fingerprint_info_tolerance
    rw [search_tolerance_of_neg tolerance hneg, search_tolerance_of_nonneg (1 / 1000) (by norm_num)]
  · intro hpos
    rcases fp_search_fingerprint_info_issued env db uuid context filename coefs tolerance hC
      with ⟨rest, h, hrest⟩
    refine ⟨Stmt.create_table (scratch_name uuid) :: rest, h, ?_⟩
    intro tablename conds hmem
    rcases List.mem_cons.mp hmem with h0 | h0
    · cases h0
    · rcases hrest _ h0 with h1 | ⟨p, hp, h1⟩
      · cases h1
      · refine ⟨p, hp, ?_⟩
        rw [search_tolerance_of_nonneg tolerance hpos] at h1
        simp only [search_sql, Stmt.insert_select.injEq] at h1
        rw [h1.2]
        exact search_conds_bounds p coefs tolerance

/-- Witness of the amended C6 on the concrete catalog, at tolerances -1 and 1/2. -/
theorem C6_negative_tolerance_replaced_witness :
    fp_search_fingerprint_info demo_env db_music_b uuid_3 "music" "/srv/audio/clip_a.wav" 2 (-1) =
        fp_search_fingerprint_info demo_env db_music_b uuid_3 "music" "/srv/audio/clip_a.wav" 2
          (1 / 1000) ∧
      ∃ stmts : List Stmt,
        (fp_search_fingerprint_info demo_env db_music_b uuid_3 "music" "/srv/audio/clip_a.wav" 2
            (1 / 2)).2.issued = db_music_b.issued ++ stmts ∧
        ∀ tablename conds, Stmt.insert_select tablename conds ∈ stmts →
          ∃ p ∈ (create_audio_fingerprints demo_env "/srv/audio/clip_a.wav" uuid_3).getD [],
            ∀ c ∈ conds,
              c.lo = render_f (json_real_value p c.col - 1 / 2) ∧
                c.hi = render_f (json_real_value p c.col + 1 / 2) :=
  ⟨(C6_negative_tolerance_replaced demo_env db_music_b uuid_3 "music" "/srv/audio/clip_a.wav" 2
      (-1) (by decide)).1 (by norm_num),
    (C6_negative_tolerance_replaced demo_env db_music_b uuid_3 "music" "/srv/audio/clip_a.wav" 2
      (1 / 2) (by decide)).2 (by norm_num)⟩

/-- C6 as stated fails: `clip_a.wav` (first coefficients 10 and 20) is searched
with one coefficient and the tolerance 0.0000001; the two ranges the call sends
are 10 to 10 and 20 to 20, the same as for the tolerance 0, and not
`10 - 0.0000001` to `10 + 0.0000001`: the half-width in use is not the tolerance
supplied. -/
theorem C6_counterexample :
    (0 : ℚ) ≤ 1 / 10000000 ∧
      (fp_search_fingerprint_info demo_env db_music_b uuid_3 "music" "/srv/audio/clip_a.wav" 1
        (1 / 10000000)).2.issued.map Stmt.bounds = [[], [(10, 10)], [(20, 20)], []] ∧
      (fp_search_fingerprint_info demo_env db_music_b uuid_3 "music" "/srv/audio/clip_a.wav" 1
        0).2.issued.map Stmt.bounds = [[], [(10, 10)], [(20, 20)], []] ∧
      ((10 : ℚ) - 1 / 10000000, (10 : ℚ) + 1 / 10000000) ≠ (10, 10) := by
  refine ⟨by decide!, by decide!, by decide!, by decide!⟩

theorem query_top_count_empty (db : Db) (t : String) (h : db.scratch t = some []) :
    query_top_count db t = none := by
  simp [query_top_count, h, count_by_audio_uuid, group_by_audio_uuid, group_by_audio_uuid_from,
    order_by_count_desc]

/-- C7 (amended): when no stored frame lies inside the box that the query sends
for any probe frame (bounds rounded to six decimals; in particular when the
probe has no frame), `fp_search_fingerprint_info` returns no record, whatever
the outcomes of the statements are. -/
theorem C7_no_votes_no_match (env : Env) (db : Db) (uuid context filename : String)
    (coefs : Int) (tolerance : ℚ) (hC : 1 ≤ coefs ∧ coefs ≤ 13)
    (hbox : ∀ p ∈ (create_audio_fingerprints env filename uuid).getD [],
      ∀ s ∈ db.audio_fingerprint, sent_in_box p coefs (search_tolerance tolerance) s = false) :
    (fp_search_fingerprint_info env db uuid context filename coefs tolerance).1 = none := by
  rw [fp_search_fingerprint_info_valid env db uuid context filename coefs tolerance hC]
  split
  · rfl
  · rename_i hct
    cases hex : create_audio_fingerprints env filename uuid with
    | none => rfl
    | some probe =>
      simp only
      have hct2 : (db_ctx_exec db (.create_table (scratch_name uuid))).1 = true := by
        simpa using hct
      have hempty := (db_ctx_exec_create_table_true db _ hct2).2
      have hfp := (db_ctx_exec_on_scratch db (.create_table (scratch_name uuid)) rfl).2.2
      have hloop := search_loop_scratch_empty (scratch_name uuid) coefs
        (search_tolerance tolerance) probe _ hempty (by
          intro p hp r hr
          rw [hfp] at hr
          rw [where_conds_search_conds p coefs _ r hC.1]
          exact hbox p (by simpa [hex] using hp) r hr)
      rw [query_top_count_empty _ _ hloop]
      rfl

/-- Witness of the amended C7: `clip_a.wav` searched in a catalog that only
holds the frames of `clip_c.wav`, with one coefficient and tolerance 1. -/
theorem C7_no_votes_no_match_witness :
    (fp_search_fingerprint_info demo_env db_music_c uuid_3 "music" "/srv/audio/clip_a.wav"
      1 1).1 = none :=
  C7_no_votes_no_match demo_env db_music_c uuid_3 "music" "/srv/audio/clip_a.wav" 1 1
    (by decide) (by decide!)

/-- C7 as stated fails: the catalog holds one frame whose coefficients are
10.000001, `clip_a.wav` (first coefficients 10 and 20) is searched with one
coefficient and the tolerance 0.0000006. No stored frame lies inside the
tolerance box of a probe frame, yet the call returns the record with one vote:
the range sent for the first frame is 9.999999 to 10.000001. -/
theorem C7_counterexample :
    (∀ p ∈ (create_audio_fingerprints demo_env "/srv/audio/clip_a.wav" uuid_3).getD [],
        ∀ s ∈ db_music_near.audio_fingerprint, spec_in_box p 1 (6 / 10000000) s = false) ∧
      (fp_search_fingerprint_info demo_env db_music_near uuid_3 "music" "/srv/audio/clip_a.wav"
        1 (6 / 10000000)).1 =
        some { uuid := uuid_1, name := "clip_e.wav", context := "music",
               hash := "e1671797c52e15f763380b45e841ec32", frame_count := 2, match_count := 1 } ∧
      (fp_search_fingerprint_info demo_env db_music_near uuid_3 "music" "/srv/audio/clip_a.wav"
        1 (6 / 10000000)).2.issued.map Stmt.bounds =
        [[], [(9999999 / 1000000, 10000001 / 1000000)],
          [(19999999 / 1000000, 20000001 / 1000000)], []] := by
  refine ⟨by decide!, by decide!, by decide!⟩

theorem mem_accumulated_rows (stored : List FpRow) (C : Int) (tau : ℚ) (probe : List Frame)
    (r : FpRow) (h : r ∈ accumulated_rows stored C tau probe) : r ∈ stored := by
  induction probe with
  | nil => simp [accumulated_rows] at h
  | cons p ps ih =>
    simp only [accumulated_rows, List.mem_append] at h
    rcases h with h | h
    · exact (List.mem_filter.mp (mem_group_by_audio_uuid h)).1
    · exact ih h

theorem sent_vote_count_le_length (stored : List FpRow) (probe : List Frame) (C : Int)
    (tau : ℚ) (w : String) : sent_vote_count stored probe C tau w ≤ probe.length :=
  List.countP_le_length _

/-- What the ranking query returns on the rows gathered by a search whose
statements all execute: a candidate with rows, its vote count, and no candidate
with more votes. -/
theorem top_of_accumulated_rows (tf : String → String → Bool) (stored : List FpRow) (C : Int)
    (tau : ℚ) (probe : List Frame) (hC : 1 ≤ C) (row : FpRow) (count : Nat)
    (h : (order_by_count_desc tf (count_by_audio_uuid
      (accumulated_rows stored C tau probe))).head? = some (row, count)) :
    row ∈ stored ∧ count = sent_vote_count stored probe C tau row.audio_uuid ∧
      ∀ w, sent_vote_count stored probe C tau w ≤ count := by
  have hh := head_order_by_count_desc _ _ _ h
  rcases List.mem_map.mp hh.1 with ⟨g, hg, hgeq⟩
  simp only [Prod.mk.injEq] at hgeq
  rcases hgeq with ⟨rfl, hcount⟩
  rw [countP_accumulated_rows stored C tau g.audio_uuid hC probe] at hcount
  refine ⟨mem_accumulated_rows _ _ _ _ _ (mem_group_by_audio_uuid hg), hcount.symm, ?_⟩
  intro w
  by_cases hw : sent_vote_count stored probe C tau w = 0
  · omega
  · rw [← countP_accumulated_rows stored C tau w hC probe] at hw
    rcases List.countP_pos_iff.mp (Nat.pos_of_ne_zero hw) with ⟨r, hr, hrw⟩
    rcases exists_mem_group_by_audio_uuid hr with ⟨g2, hg2, hg2w⟩
    have hrw2 : r.audio_uuid = w := by simpa using hrw
    have hmem : (g2, (accumulated_rows stored C tau probe).countP
        (fun s => s.audio_uuid == g2.audio_uuid)) ∈
        count_by_audio_uuid (accumulated_rows stored C tau probe) :=
      List.mem_map.mpr ⟨g2, hg2, rfl⟩
    have hle := hh.2 _ hmem
    simp only at hle
    rw [countP_accumulated_rows stored C tau g2.audio_uuid hC probe, hg2w, hrw2] at hle
    exact hle

theorem where_uuid_of_no_quote (db : Db) (uuid : String) (h : has_quote uuid = false)
    (r : AudioRow) : where_uuid db uuid r = (r.uuid == uuid) := by
  simp [where_uuid, select_where, h]

theorem search_result_some (db : Db) (n : Nat) (j : Option (FpRow × Nat)) (res : SearchResult)
    (h : search_result db n j = some res) :
    ∃ row count, j = some (row, count) ∧
      res.match_count = count ∧ res.frame_count = n ∧
      (has_quote row.audio_uuid = false → res.uuid = row.audio_uuid) ∧
      get_audio_list_info db row.audio_uuid =
        some { uuid := res.uuid, name := res.name, context := res.context, hash := res.hash } := by
  cases j with
  | none => simp [search_result] at h
  | some x =>
    obtain ⟨row, count⟩ := x
    simp only [search_result] at h
    cases hg : get_audio_list_info db row.audio_uuid with
    | none => rw [hg] at h; simp at h
    | some a =>
      rw [hg] at h
      simp only [Option.some.injEq] at h
      subst h
      have hfind := List.find?_some hg
      refine ⟨row, count, rfl, rfl, rfl, ?_, hg⟩
      intro hq
      rw [where_uuid_of_no_quote db _ hq] at hfind
      simpa using hfind

/-- The facts a returned record gives, whatever the outcomes of the statements:
it is resolved from the first row of the ranking of the rows gathered for the
probe frames whose statement the store executed. -/
theorem fp_search_fingerprint_info_some (env : Env) (db : Db)
    (uuid context filename : String) (coefs : Int) (tolerance : ℚ) (probe : List Frame)
    (res : SearchResult)
    (hex : create_audio_fingerprints env filename uuid = some probe)
    (hres : (fp_search_fingerprint_info env db uuid context filename coefs tolerance).1 =
      some res) :
    1 ≤ coefs ∧
      search_result db probe.length
        (order_by_count_desc db.tie_first (count_by_audio_uuid
          (accumulated_rows db.audio_fingerprint coefs (search_tolerance tolerance)
            (frames_inserted db.faults.tail probe)))).head? = some res := by
  have hC : 1 ≤ coefs ∧ coefs ≤ 13 := by
    by_contra hC
    have hC2 : coefs < 1 ∨ coefs > 13 := by omega
    rw [fp_search_fingerprint_info_invalid env db uuid context filename coefs tolerance hC2]
      at hres
    simp at hres
  refine ⟨hC.1, ?_⟩
  rw [fp_search_fingerprint_info_valid env db uuid context filename coefs tolerance hC] at hres
  split at hres
  · simp at hres
  · rename_i hct
    have hct2 : (db_ctx_exec db (.create_table (scratch_name uuid))).1 = true := by
      simpa using hct
    rw [hex] at hres
    simp only at hres
    have hempty := (db_ctx_exec_create_table_true db _ hct2).2
    have hc := db_ctx_exec_on_scratch db (.create_table (scratch_name uuid)) rfl
    have hco := db_ctx_exec_oracles db (.create_table (scratch_name uuid))
    have hl := search_loop_tables (scratch_name uuid) coefs (search_tolerance tolerance)
      probe (db_ctx_exec db (.create_table (scratch_name uuid))).2
    have hlo := search_loop_oracles (scratch_name uuid) coefs (search_tolerance tolerance)
      probe (db_ctx_exec db (.create_table (scratch_name uuid))).2
    have hd := db_ctx_exec_on_scratch
      (search_loop (scratch_name uuid) coefs (search_tolerance tolerance)
        (db_ctx_exec db (.create_table (scratch_name uuid))).2 probe)
      (.drop_table (scratch_name uuid)) rfl
    have hdo := db_ctx_exec_oracles
      (search_loop (scratch_name uuid) coefs (search_tolerance tolerance)
        (db_ctx_exec db (.create_table (scratch_name uuid))).2 probe)
      (.drop_table (scratch_name uuid))
    have hscr := search_loop_scratch (scratch_name uuid) coefs (search_tolerance tolerance)
      probe (db_ctx_exec db (.create_table (scratch_name uuid))).2 [] hempty
    rw [hc.2.2, db_ctx_exec_faults, List.nil_append] at hscr
    rw [search_result_congr db _ _ _ (hd.2.1.trans (hl.2.1.trans hc.2.1))
      (hdo.2.1.trans (hlo.1.trans hco.2.1))] at hres
    simp only [query_top_count, hscr, hlo.2, hco.2.2.2] at hres
    exact hres

theorem sent_in_box_congr (p p2 : Frame) (s s2 : FpRow) (C : Int) (tau : ℚ)
    (hp : ∀ i : Fin DEF_AUBIO_COEFS, (i.val : Int) < C → p.max i = p2.max i)
    (hs : ∀ i : Fin DEF_AUBIO_COEFS, (i.val : Int) < C → s.max i = s2.max i) :
    sent_in_box p C tau s = sent_in_box p2 C tau s2 := by
  unfold sent_in_box json_real_value
  rw [decide_eq_decide]
  constructor
  · intro h i hi
    rw [← hp i hi, ← hs i hi]
    exact h i hi
  · intro h i hi
    rw [hp i hi, hs i hi]
    exact h i hi

theorem sent_vote_count_congr (C : Int) (tau : ℚ) (w : String)
    (stored stored2 : List FpRow) (probe probe2 : List Frame)
    (hstored : List.Forall₂ (fun s s2 : FpRow => s.audio_uuid = s2.audio_uuid ∧
      ∀ i : Fin DEF_AUBIO_COEFS, (i.val : Int) < C → s.max i = s2.max i) stored stored2)
    (hprobe : List.Forall₂ (fun p p2 : Frame =>
      ∀ i : Fin DEF_AUBIO_COEFS, (i.val : Int) < C → p.max i = p2.max i) probe probe2) :
    sent_vote_count stored probe C tau w = sent_vote_count stored2 probe2 C tau w := by
  have hany : ∀ p p2 : Frame,
      (∀ i : Fin DEF_AUBIO_COEFS, (i.val : Int) < C → p.max i = p2.max i) →
      stored.any (fun s => s.audio_uuid == w && sent_in_box p C tau s) =
        stored2.any (fun s => s.audio_uuid == w && sent_in_box p2 C tau s) := by
    intro p p2 hp
    induction hstored with
    | nil => simp
    | cons hab _ ih =>
      simp only [List.any_cons, ih, hab.1, sent_in_box_congr p p2 _ _ C tau hp hab.2]
  unfold sent_vote_count
  induction hprobe with
  | nil => simp
  | cons hab _ ih =>
    simp only [List.countP_cons, ih, hany _ _ hab]

/-- C3 (amended): when `fp_search_fingerprint_info` returns a record, the record
is the one found for the winning `audio_uuid` `w`, and its `match_count` is the
number of probe frames whose statement the store executed (the first outcome of
the store goes to the creation of the scratch table, the next ones to the probe
frames in order) and for which `w` owns at least one stored frame inside the
box that the query sends, `p.coef[i] - tau` to `p.coef[i] + tau` with both
bounds rounded to six decimals, over the first `C` coefficients (`tau` being
the tolerance in use); when the store executes every statement these are all
the probe frames. Each probe frame counts once, so the count is at most
`frame_count`, the number of probe frames; and the count is the same for any
stored frames and probe frames that differ from the actual ones only in the
coefficients after the first `C`. -/
theorem C3_match_count_is_vote_count (env : Env) (db : Db) (uuid context filename : String)
    (coefs : Int) (tolerance : ℚ) (probe : List Frame) (res : SearchResult)
    (hex : create_audio_fingerprints env filename uuid = some probe)
    (hres : (fp_search_fingerprint_info env db uuid context filename coefs tolerance).1 =
      some res) :
    ∃ w : String,
      get_audio_list_info db w =
        some { uuid := res.uuid, name := res.name, context := res.context, hash := res.hash } ∧
      (has_quote w = false → res.uuid = w) ∧
      res.match_count =
        sent_vote_count db.audio_fingerprint (frames_inserted db.faults.tail probe) coefs
          (search_tolerance tolerance) w ∧
      (db.faults = [] →
        res.match_count =
          sent_vote_count db.audio_fingerprint probe coefs (search_tolerance tolerance) w) ∧
      res.frame_count = probe.length ∧ res.match_count ≤ res.frame_count ∧
      ∀ (stored2 : List FpRow) (probe2 : List Frame),
        List.Forall₂ (fun s s2 : FpRow => s.audio_uuid = s2.audio_uuid ∧
          ∀ i : Fin DEF_AUBIO_COEFS, (i.val : Int) < coefs → s.max i = s2.max i)
          db.audio_fingerprint stored2 →
        List.Forall₂ (fun p p2 : Frame =>
          ∀ i : Fin DEF_AUBIO_COEFS, (i.val : Int) < coefs → p.max i = p2.max i) probe probe2 →
        res.match_count =
          sent_vote_count stored2 (frames_inserted db.faults.tail probe2) coefs
            (search_tolerance tolerance) w := by
  rcases fp_search_fingerprint_info_some env db uuid context filename coefs tolerance probe res
    hex hres with ⟨hC, hsr⟩
  rcases search_result_some _ _ _ _ hsr with ⟨row, count, hj, hm, hn, hu, hg⟩
  have htop := top_of_accumulated_rows _ _ _ _ _ hC row count hj
  have h1 : res.match_count =
      sent_vote_count db.audio_fingerprint (frames_inserted db.faults.tail probe) coefs
        (search_tolerance tolerance) row.audio_uuid := by
    rw [hm]; exact htop.2.1
  refine ⟨row.audio_uuid, hg, hu, h1, ?_, hn, ?_, ?_⟩
  · intro hf
    rw [h1, hf]
    simp [frames_inserted_nil]
  · rw [h1, hn]
    exact le_trans (sent_vote_count_le_length _ _ _ _ _) (frames_inserted_length_le _ _)
  · intro stored2 probe2 hs hp
    rw [h1]
    exact sent_vote_count_congr coefs _ _ _ _ _ _ hs (frames_inserted_forall₂ _ _ _ hp _)

/-- C4 (amended): when `fp_search_fingerprint_info` returns a record with
`match_count` m, no `audio_uuid` has more than m votes over the probe frames
whose statement the store executed (all the probe frames, when the store
executes every statement), a vote being a probe frame for which the
`audio_uuid` owns a stored frame inside the box that the query sends (bounds
rounded to six decimals). -/
theorem C4_winner_has_most_votes (env : Env) (db : Db) (uuid context filename : String)
    (coefs : Int) (tolerance : ℚ) (probe : List Frame) (res : SearchResult)
    (hex : create_audio_fingerprints env filename uuid = some probe)
    (hres : (fp_search_fingerprint_info env db uuid context filename coefs tolerance).1 =
      some res) :
    (∀ w : String,
      sent_vote_count db.audio_fingerprint (frames_inserted db.faults.tail probe) coefs
          (search_tolerance tolerance) w ≤ res.match_count) ∧
    (db.faults = [] → ∀ w : String,
      sent_vote_count db.audio_fingerprint probe coefs (search_tolerance tolerance) w ≤
        res.match_count) := by
  rcases fp_search_fingerprint_info_some env db uuid context filename coefs tolerance probe res
    hex hres with ⟨hC, hsr⟩
  rcases search_result_some _ _ _ _ hsr with ⟨row, count, hj, hm, _, _, _⟩
  have htop := top_of_accumulated_rows _ _ _ _ _ hC row count hj
  have h1 : ∀ w : String,
      sent_vote_count db.audio_fingerprint (frames_inserted db.faults.tail probe) coefs
          (search_tolerance tolerance) w ≤ res.match_count := by
    intro w
    rw [hm]
    exact htop.2.2 w
  refine ⟨h1, ?_⟩
  intro hf w
  have := h1 w
  rw [hf] at this
  simpa [frames_inserted_nil] using this

/-- Witness of the amended C3: the search of `clip_a.wav` in the catalog holding
`clip_b.wav`, when the store fails the statement of the first probe frame (one
vote, from the second frame), and when it executes every statement (two
votes). -/
theorem C3_match_count_is_vote_count_witness :
    (∃ w : String,
      get_audio_list_info db_music_b_second_fails w =
        some { uuid := uuid_1, name := "clip_b.wav", context := "music",
               hash := "92eb5ffee6ae2fec3ad71c777531578f" } ∧
      (has_quote w = false → uuid_1 = w) ∧
      (1 : Nat) =
        sent_vote_count db_music_b_second_fails.audio_fingerprint
          (frames_inserted db_music_b_second_fails.faults.tail
            (create_audio_fingerprints_loop demo_env uuid_3
              [(256, fun _ => 10), (256, fun i => if i.val = 0 then 100 else 10),
                (0, fun _ => 1)] 0))
          13 (search_tolerance 0) w ∧
      (2 : Nat) = (create_audio_fingerprints_loop demo_env uuid_3
            [(256, fun _ => 10), (256, fun i => if i.val = 0 then 100 else 10),
              (0, fun _ => 1)] 0).length ∧
      (1 : Nat) ≤ 2) ∧
    (∃ w : String,
      get_audio_list_info db_music_b w =
        some { uuid := uuid_1, name := "clip_b.wav", context := "music",
               hash := "92eb5ffee6ae2fec3ad71c777531578f" } ∧
      (2 : Nat) =
        sent_vote_count db_music_b.audio_fingerprint
          (create_audio_fingerprints_loop demo_env uuid_3
            [(256, fun _ => 10), (256, fun i => if i.val = 0 then 100 else 10), (0, fun _ => 1)] 0)
          1 (search_tolerance 0) w) :=
  ⟨(C3_match_count_is_vote_count demo_env db_music_b_second_fails uuid_3 "music"
      "/srv/audio/clip_a.wav" 13 0
      (create_audio_fingerprints_loop demo_env uuid_3
        [(256, fun _ => 10), (256, fun i => if i.val = 0 then 100 else 10), (0, fun _ => 1)] 0)
      { uuid := uuid_1, name := "clip_b.wav", context := "music",
        hash := "92eb5ffee6ae2fec3ad71c777531578f", frame_count := 2, match_count := 1 }
      rfl (by decide!)).imp
      (fun _ h => ⟨h.1, h.2.1, h.2.2.1, h.2.2.2.2.1, h.2.2.2.2.2.1⟩),
    (C3_match_count_is_vote_count demo_env db_music_b uuid_3 "music"
      "/srv/audio/clip_a.wav" 1 0
      (create_audio_fingerprints_loop demo_env uuid_3
        [(256, fun _ => 10), (256, fun i => if i.val = 0 then 100 else 10), (0, fun _ => 1)] 0)
      { uuid := uuid_1, name := "clip_b.wav", context := "music",
        hash := "92eb5ffee6ae2fec3ad71c777531578f", frame_count := 2, match_count := 2 }
      rfl (by decide!)).imp
      (fun _ h => ⟨h.1, h.2.2.2.1 rfl⟩)⟩

/-- C3 as stated fails, in two ways. The catalog holds `clip_b.wav` (the two
frames of `clip_a.wav`) and the store fails the statement of the first probe
frame: the search of `clip_a.wav` returns the record with `match_count` 1,
while both probe frames have a stored frame of the record inside their box.
The catalog holds one frame whose coefficients are 10.000001 and `clip_a.wav`
(first coefficients 10 and 20) is searched with one coefficient and the
tolerance 0.0000006, every statement executing: the record is returned with
`match_count` 1, while no probe frame has a stored frame inside its box. -/
theorem C3_counterexample :
    (fp_search_fingerprint_info demo_env db_music_b_second_fails uuid_3 "music"
        "/srv/audio/clip_a.wav" 13 0).1 =
        some { uuid := uuid_1, name := "clip_b.wav", context := "music",
               hash := "92eb5ffee6ae2fec3ad71c777531578f", frame_count := 2, match_count := 1 } ∧
      spec_vote_count db_music_b_second_fails.audio_fingerprint
        ((create_audio_fingerprints demo_env "/srv/audio/clip_a.wav" uuid_3).getD []) 13 0
        uuid_1 = 2 ∧
      db_music_near.faults = [] ∧
      (fp_search_fingerprint_info demo_env db_music_near uuid_3 "music" "/srv/audio/clip_a.wav"
        1 (6 / 10000000)).1 =
        some { uuid := uuid_1, name := "clip_e.wav", context := "music",
               hash := "e1671797c52e15f763380b45e841ec32", frame_count := 2, match_count := 1 } ∧
      spec_vote_count db_music_near.audio_fingerprint
        ((create_audio_fingerprints demo_env "/srv/audio/clip_a.wav" uuid_3).getD []) 1
        (6 / 10000000) uuid_1 = 0 := by
  refine ⟨by decide!, by decide!, by decide, by decide!, by decide!⟩

/-- Witness of the amended C4: the search of `clip_a.wav` in the catalog holding
`clip_b.wav` and a record with one of its frames, when the store fails the
statement of the first probe frame (neither uuid has more than 1 vote over the
frame whose statement was executed), and when it executes every statement
(neither has more than 2 votes). -/
theorem C4_winner_has_most_votes_witness :
    (∀ w : String,
      sent_vote_count db_music_pair_second_fails.audio_fingerprint
          (frames_inserted db_music_pair_second_fails.faults.tail
            (create_audio_fingerprints_loop demo_env uuid_3
              [(256, fun _ => 10), (256, fun i => if i.val = 0 then 100 else 10),
                (0, fun _ => 1)] 0))
          13 (search_tolerance 0) w ≤ 1) ∧
      sent_vote_count db_music_pair.audio_fingerprint
          (create_audio_fingerprints_loop demo_env uuid_3
            [(256, fun _ => 10), (256, fun i => if i.val = 0 then 100 else 10), (0, fun _ => 1)] 0)
          13 (search_tolerance 0) uuid_1 ≤ 2 ∧
      sent_vote_count db_music_pair.audio_fingerprint
          (create_audio_fingerprints_loop demo_env uuid_3
            [(256, fun _ => 10), (256, fun i => if i.val = 0 then 100 else 10), (0, fun _ => 1)] 0)
          13 (search_tolerance 0) uuid_2 ≤ 2 :=
  ⟨(C4_winner_has_most_votes demo_env db_music_pair_second_fails uuid_3 "music"
      "/srv/audio/clip_a.wav" 13 0
      (create_audio_fingerprints_loop demo_env uuid_3
        [(256, fun _ => 10), (256, fun i => if i.val = 0 then 100 else 10), (0, fun _ => 1)] 0)
      { uuid := uuid_2, name := "clip_d.wav", context := "music",
        hash := "8277e0910d750195b448797616e091ad", frame_count := 2, match_count := 1 }
      rfl (by decide!)).1,
    (C4_winner_has_most_votes demo_env db_music_pair uuid_3 "music" "/srv/audio/clip_a.wav" 13 0
      (create_audio_fingerprints_loop demo_env uuid_3
        [(256, fun _ => 10), (256, fun i => if i.val = 0 then 100 else 10), (0, fun _ => 1)] 0)
      { uuid := uuid_1, name := "clip_b.wav", context := "music",
        hash := "92eb5ffee6ae2fec3ad71c777531578f", frame_count := 2, match_count := 2 }
      rfl (by decide!)).2 rfl uuid_1,
    (C4_winner_has_most_votes demo_env db_music_pair uuid_3 "music" "/srv/audio/clip_a.wav" 13 0
      (create_audio_fingerprints_loop demo_env uuid_3
        [(256, fun _ => 10), (256, fun i => if i.val = 0 then 100 else 10), (0, fun _ => 1)] 0)
      { uuid := uuid_1, name := "clip_b.wav", context := "music",
        hash := "92eb5ffee6ae2fec3ad71c777531578f", frame_count := 2, match_count := 2 }
      rfl (by decide!)).2 rfl uuid_2⟩

/-- C4 as stated fails, in two ways. The catalog holds the record `uuid_1` with
the two frames of `clip_a.wav` and the record `uuid_2` with the second of them,
and the store fails the statement of the first probe frame: the search of
`clip_a.wav` returns `uuid_2` with `match_count` 1, while `uuid_1` has 2 votes.
The catalog holds `uuid_1` with frames of first coefficients 9.9999997 and
19.9999997 and `uuid_2` with a frame of first coefficient 10, and `clip_a.wav`
(first coefficients 10 and 20) is searched with one coefficient and the
tolerance 0.0000004, every statement executing: the ranges sent are 10 to 10
and 20 to 20, `uuid_2` is returned with `match_count` 1, while `uuid_1` has 2
votes. -/
theorem C4_counterexample :
    (fp_search_fingerprint_info demo_env db_music_pair_second_fails uuid_3 "music"
        "/srv/audio/clip_a.wav" 13 0).1 =
        some { uuid := uuid_2, name := "clip_d.wav", context := "music",
               hash := "8277e0910d750195b448797616e091ad", frame_count := 2, match_count := 1 } ∧
      spec_vote_count db_music_pair_second_fails.audio_fingerprint
        ((create_audio_fingerprints demo_env "/srv/audio/clip_a.wav" uuid_3).getD []) 13 0
        uuid_1 = 2 ∧
      db_music_fine.faults = [] ∧
      (fp_search_fingerprint_info demo_env db_music_fine uuid_3 "music" "/srv/audio/clip_a.wav"
        1 (4 / 10000000)).1 =
        some { uuid := uuid_2, name := "clip_g.wav", context := "music",
               hash := "b2f5ff47436671b6e533d8dc3614845d", frame_count := 2, match_count := 1 } ∧
      (fp_search_fingerprint_info demo_env db_music_fine uuid_3 "music" "/srv/audio/clip_a.wav"
        1 (4 / 10000000)).2.issued.map Stmt.bounds = [[], [(10, 10)], [(20, 20)], []] ∧
      spec_vote_count db_music_fine.audio_fingerprint
        ((create_audio_fingerprints demo_env "/srv/audio/clip_a.wav" uuid_3).getD []) 1
        (4 / 10000000) uuid_1 = 2 := by
  refine ⟨by decide!, by decide!, by decide, by decide!, by decide!, by decide!⟩

/-- C2 fails on the code: the catalog holds one clip, in context `music`; the
search of `clip_a.wav` asked for context `prompts` gets 2 votes from the frames
stored under `music` and returns the record of context `music`. -/
theorem C2_match_crosses_contexts :
    db_music_b.audio_list.map (fun r => (r.uuid, r.context)) = [(uuid_1, "music")] ∧
      db_music_b.audio_fingerprint.map (fun r => (r.audio_uuid, r.context)) =
        [(uuid_1, "music"), (uuid_1, "music")] ∧
      (fp_search_fingerprint_info demo_env db_music_b uuid_3 "prompts" "/srv/audio/clip_a.wav"
          13 0).1 =
        some { uuid := uuid_1, name := "clip_b.wav", context := "music",
               hash := "92eb5ffee6ae2fec3ad71c777531578f", frame_count := 2,
               match_count := 2 } := by
  refine ⟨by decide, by decide, by decide!⟩

/-! ## Self-match -/

theorem create_audio_fingerprints_loop_max (env : Env) (u s : String)
    (src : List (Nat × (Fin DEF_AUBIO_COEFS → ℚ))) :
    ∀ k : Nat, (create_audio_fingerprints_loop env u src k).map (fun q => q.max) =
      (create_audio_fingerprints_loop env s src k).map (fun q => q.max) := by
  induction src with
  | nil => intro k; simp [create_audio_fingerprints_loop]
  | cons a rest ih =>
    intro k
    obtain ⟨reads, mfcc_out⟩ := a
    simp only [create_audio_fingerprints_loop]
    split
    · rfl
    · simp [ih (k + 1)]

theorem create_audio_fingerprints_loop_uuid (env : Env) (u : String)
    (src : List (Nat × (Fin DEF_AUBIO_COEFS → ℚ))) :
    ∀ k : Nat, ∀ q ∈ create_audio_fingerprints_loop env u src k, q.audio_uuid = u := by
  induction src with
  | nil => intro k q hq; simp [create_audio_fingerprints_loop] at hq
  | cons a rest ih =>
    intro k q hq
    obtain ⟨reads, mfcc_out⟩ := a
    simp only [create_audio_fingerprints_loop] at hq
    split at hq
    · simp at hq
    · rcases List.mem_cons.mp hq with h | h
      · rw [h]
      · exact ih (k + 1) q h

theorem create_audio_fingerprints_loop_length (env : Env) (u s : String)
    (src : List (Nat × (Fin DEF_AUBIO_COEFS → ℚ))) (k : Nat) :
    (create_audio_fingerprints_loop env u src k).length =
      (create_audio_fingerprints_loop env s src k).length := by
  have h := congrArg List.length (create_audio_fingerprints_loop_max env u s src k)
  simpa using h

theorem sent_vote_count_append_other (a b : List FpRow) (probe : List Frame) (C : Int) (tau : ℚ)
    (w : String) (hb : ∀ r ∈ b, r.audio_uuid ≠ w) :
    sent_vote_count (a ++ b) probe C tau w = sent_vote_count a probe C tau w := by
  unfold sent_vote_count
  congr 1
  funext p
  rw [List.any_append]
  have : b.any (fun s => s.audio_uuid == w && sent_in_box p C tau s) = false := by
    rw [List.any_eq_false]
    intro r hr
    simp [hb r hr]
  rw [this, Bool.or_false]

theorem sent_vote_count_self (env : Env) (stored : List FpRow) (context u s : String)
    (src : List (Nat × (Fin DEF_AUBIO_COEFS → ℚ))) (C : Int) (tau : ℚ)
    (hself : ∀ p ∈ create_audio_fingerprints_loop env s src 0,
      sent_in_box p C tau (fingerprint_row context p) = true) :
    sent_vote_count
        (stored ++ (create_audio_fingerprints_loop env u src 0).map (fingerprint_row context))
        (create_audio_fingerprints_loop env s src 0) C tau u =
      (create_audio_fingerprints_loop env s src 0).length := by
  unfold sent_vote_count
  rw [List.countP_eq_length]
  intro p hp
  have hpm : p.max ∈ (create_audio_fingerprints_loop env s src 0).map (fun q => q.max) :=
    List.mem_map.mpr ⟨p, hp, rfl⟩
  rw [← create_audio_fingerprints_loop_max env u s src 0] at hpm
  rcases List.mem_map.mp hpm with ⟨q, hq, hqm⟩
  rw [List.any_eq_true]
  refine ⟨fingerprint_row context q, ?_, ?_⟩
  · exact List.mem_append_right _ (List.mem_map.mpr ⟨q, hq, rfl⟩)
  · have hu := create_audio_fingerprints_loop_uuid env u src 0 q hq
    simp only [Bool.and_eq_true, beq_iff_eq]
    refine ⟨hu, ?_⟩
    rw [sent_in_box_congr p p (fingerprint_row context q) (fingerprint_row context p) C tau
      (fun _ _ => rfl) (fun i _ => by simp [fingerprint_row, hqm])]
    exact hself p hp

theorem round_half_even_bounds (x : ℚ) :
    ⌊x⌋ ≤ round_half_even x ∧ round_half_even x ≤ ⌊x⌋ + 1 := by
  unfold round_half_even
  split_ifs <;> omega

theorem round_half_even_mono {x y : ℚ} (h : x ≤ y) : round_half_even x ≤ round_half_even y := by
  have hf : ⌊x⌋ ≤ ⌊y⌋ := Int.floor_mono h
  rcases lt_or_eq_of_le hf with hlt | heq
  · have h1 := (round_half_even_bounds x).2
    have h2 := (round_half_even_bounds y).1
    omega
  · unfold round_half_even
    rw [← heq]
    split_ifs <;> first | omega | (exfalso; linarith)

theorem round_half_even_intCast (k : Int) : round_half_even (k : ℚ) = k := by
  unfold round_half_even
  simp

theorem render_f_mono {x y : ℚ} (h : x ≤ y) : render_f x ≤ render_f y := by
  unfold render_f
  have h1 : x * 1000000 ≤ y * 1000000 := by linarith
  have h2 := round_half_even_mono h1
  have h3 : ((round_half_even (x * 1000000) : Int) : ℚ) ≤ (round_half_even (y * 1000000) : Int) :=
    Int.cast_le.mpr h2
  exact div_le_div_of_nonneg_right h3 (by norm_num)

theorem render_f_of_six_decimals (k : Int) : render_f ((k : ℚ) / 1000000) = (k : ℚ) / 1000000 := by
  unfold render_f
  have : (k : ℚ) / 1000000 * 1000000 = (k : ℚ) := by field_simp
  rw [this, round_half_even_intCast]

/-- A frame whose first `C` coefficients are finite and have at most six
decimals lies inside the box that the query sends for it, for every tolerance
`tau >= 0`. -/
theorem sent_in_box_self_of_six_decimals (p : Frame) (context : String) (C : Int) (tau : ℚ)
    (htau : 0 ≤ tau)
    (hgrid : ∀ i : Fin DEF_AUBIO_COEFS, (i.val : Int) < C →
      ∃ k : Int, p.max i = some ((k : ℚ) / 1000000)) :
    sent_in_box p C tau (fingerprint_row context p) = true := by
  simp only [sent_in_box, decide_eq_true_eq]
  intro i hi
  rcases hgrid i hi with ⟨k, hk⟩
  simp only [fingerprint_row, json_real_value, hk, Option.getD_some, cond_holds,
    Bool.and_eq_true, decide_eq_true_eq, ge_iff_le]
  constructor
  · calc render_f ((k : ℚ) / 1000000 - tau) ≤ render_f ((k : ℚ) / 1000000) :=
        render_f_mono (by linarith)
      _ = (k : ℚ) / 1000000 := render_f_of_six_decimals k
  · calc (k : ℚ) / 1000000 = render_f ((k : ℚ) / 1000000) := (render_f_of_six_decimals k).symm
      _ ≤ render_f ((k : ℚ) / 1000000 + tau) := render_f_mono (by linarith)
/-- The votes of the identifiers of other contexts, when no frame of another
context lies inside a sent box: they are votes of frames of the queried context. -/
theorem sent_vote_count_lt_of_context (stored : List FpRow) (probe : List Frame) (C : Int)
    (tau : ℚ) (context u : String) (n : Nat) (hn : 1 ≤ n)
    (hsame : ∀ r ∈ stored, r.context = context → r.audio_uuid ≠ u →
      sent_vote_count stored probe C tau r.audio_uuid < n)
    (hcross : ∀ r ∈ stored, r.context ≠ context → ∀ p ∈ probe, sent_in_box p C tau r = false)
    (r : FpRow) (hne : r.audio_uuid ≠ u) :
    sent_vote_count stored probe C tau r.audio_uuid < n := by
  by_cases hz : sent_vote_count stored probe C tau r.audio_uuid = 0
  · omega
  · unfold sent_vote_count at hz
    rcases List.countP_pos_iff.mp (Nat.pos_of_ne_zero hz) with ⟨p, hp, hany⟩
    rcases List.any_eq_true.mp hany with ⟨s, hs, hsb⟩
    simp only [Bool.and_eq_true, beq_iff_eq] at hsb
    have hctx : s.context = context := by
      by_contra hc
      have := hcross s hs hc p hp
      rw [this] at hsb
      exact absurd hsb.2 (by simp)
    have := hsame s hs hctx (by rw [hsb.1]; exact hne)
    rwa [hsb.1] at this

/-- C1 (amended): with every statement executing and fresh identifiers, when
`fp_craete_audio_list_info` creates the record `u` for a clip of `n >= 1`
frames (the file is hashed, the context holds no record of that hash, the base
name is read back after the free and the clip is decoded), every frame of the
clip lies inside the box that the query sends for it, no frame stored under
another context lies inside such a box and every other `audio_uuid` of the
context collects fewer than `n` votes from the clip's frames, the search of the
same clip, for every coefficient count from 1 to 13 and every tolerance
`tau >= 0`, returns the record `u` with `match_count = frame_count = n`. -/
theorem C1_self_match_without_tie (env : Env) (db : Db)
    (u s context filename hash name : String)
    (src : List (Nat × (Fin DEF_AUBIO_COEFS → ℚ))) (coefs : Int) (tolerance : ℚ)
    (hf : db.faults = [])
    (hh : create_file_hash env filename = some hash)
    (hnew : get_audio_list_info_by_context_and_hash db context hash = none)
    (hname : env.basename_freed filename = some name)
    (hsrc : (env.fopen filename).bind env.aubio = some src)
    (hn : 1 ≤ (create_audio_fingerprints_loop env u src 0).length)
    (hu : get_audio_list_info db u = none) (huq : has_quote u = false)
    (hs : db.scratch (scratch_name s) = none)
    (hC : 1 ≤ coefs ∧ coefs ≤ 13) (htau : 0 ≤ tolerance)
    (hself : ∀ p ∈ create_audio_fingerprints_loop env s src 0,
      sent_in_box p coefs tolerance (fingerprint_row context p) = true)
    (hcross : ∀ r ∈ db.audio_fingerprint, r.context ≠ context →
      ∀ p ∈ create_audio_fingerprints_loop env s src 0, sent_in_box p coefs tolerance r = false)
    (hsame : ∀ r ∈ db.audio_fingerprint, r.context = context → r.audio_uuid ≠ u →
      sent_vote_count db.audio_fingerprint (create_audio_fingerprints_loop env s src 0)
        coefs tolerance r.audio_uuid < (create_audio_fingerprints_loop env u src 0).length) :
    (fp_craete_audio_list_info env db u context filename).1 = true ∧
      (fp_search_fingerprint_info env (fp_craete_audio_list_info env db u context filename).2
          s context filename coefs tolerance).1 =
        some { uuid := u, name := name, context := context, hash := hash,
               frame_count := (create_audio_fingerprints_loop env u src 0).length,
               match_count := (create_audio_fingerprints_loop env u src 0).length } := by
  have hexu : create_audio_fingerprints env filename u =
      some (create_audio_fingerprints_loop env u src 0) := by
    simp [create_audio_fingerprints, hsrc]
  have hexs : create_audio_fingerprints env filename s =
      some (create_audio_fingerprints_loop env s src 0) := by
    simp [create_audio_fingerprints, hsrc]
  have hlen := create_audio_fingerprints_loop_length env u s src 0
  have hother := sent_vote_count_lt_of_context db.audio_fingerprint
    (create_audio_fingerprints_loop env s src 0) coefs tolerance context u
    (create_audio_fingerprints_loop env u src 0).length hn hsame hcross
  rw [fp_craete_audio_list_info_created env db u context filename hash name _ hf hh hnew hname
    hexu]
  refine ⟨rfl, ?_⟩
  simp only
  rw [fp_search_fingerprint_info_no_faults env
    { db with
      issued := db.issued ++
        (Stmt.insert (.audio_list
            { uuid := u, name := name, context := context, hash := hash }) ::
          (create_audio_fingerprints_loop env u src 0).map
            (fun p => Stmt.insert (.audio_fingerprint (fingerprint_row context p)))),
      audio_list := db.audio_list ++
        [{ uuid := u, name := name, context := context, hash := hash }],
      audio_fingerprint := db.audio_fingerprint ++
        (create_audio_fingerprints_loop env u src 0).map (fingerprint_row context) }
    s context filename coefs tolerance _ hf hs hC hexs]
  simp only
  rw [search_tolerance_of_nonneg tolerance htau]
  have hselfc := sent_vote_count_self env db.audio_fingerprint context u s src coefs tolerance
    hself
  cases htop : (order_by_count_desc db.tie_first (count_by_audio_uuid
      (accumulated_rows
        (db.audio_fingerprint ++
          (create_audio_fingerprints_loop env u src 0).map (fingerprint_row context))
        coefs tolerance (create_audio_fingerprints_loop env s src 0)))).head? with
  | none =>
    exfalso
    have hnil := head_order_by_count_desc_eq_none _ _ htop
    have hpos : 0 < (accumulated_rows
        (db.audio_fingerprint ++
          (create_audio_fingerprints_loop env u src 0).map (fingerprint_row context))
        coefs tolerance (create_audio_fingerprints_loop env s src 0)).countP
          (fun r => r.audio_uuid == u) := by
      rw [countP_accumulated_rows _ _ _ _ hC.1, hselfc]; omega
    rcases List.countP_pos_iff.mp hpos with ⟨r, hr, _⟩
    rcases exists_mem_group_by_audio_uuid hr with ⟨g, hg, _⟩
    simp only [count_by_audio_uuid, List.map_eq_nil_iff] at hnil
    rw [hnil] at hg
    simp at hg
  | some x =>
    obtain ⟨row, count⟩ := x
    have h3 := top_of_accumulated_rows _ _ _ _ _ hC.1 row count htop
    have hrow : row.audio_uuid = u := by
      by_contra hne
      have hlt := hother row hne
      have happ := sent_vote_count_append_other db.audio_fingerprint
        ((create_audio_fingerprints_loop env u src 0).map (fingerprint_row context))
        (create_audio_fingerprints_loop env s src 0) coefs tolerance row.audio_uuid (by
          intro r hr heq
          rcases List.mem_map.mp hr with ⟨q, hq, hqr⟩
          apply hne
          rw [← heq, ← hqr]
          exact create_audio_fingerprints_loop_uuid env u src 0 q hq)
      have hle := h3.2.2 u
      rw [hselfc] at hle
      have hc := h3.2.1
      rw [happ] at hc
      omega
    have hcount : count = (create_audio_fingerprints_loop env u src 0).length := by
      rw [h3.2.1, hrow, hselfc, hlen]
    have hfind : get_audio_list_info
        { db with
          issued := db.issued ++
            (Stmt.insert (.audio_list
                { uuid := u, name := name, context := context, hash := hash }) ::
              (create_audio_fingerprints_loop env u src 0).map
                (fun p => Stmt.insert (.audio_fingerprint (fingerprint_row context p)))),
          audio_list := db.audio_list ++
            [{ uuid := u, name := name, context := context, hash := hash }],
          audio_fingerprint := db.audio_fingerprint ++
            (create_audio_fingerprints_loop env u src 0).map (fingerprint_row context) } u =
        some { uuid := u, name := name, context := context, hash := hash } := by
      unfold get_audio_list_info at hu ⊢
      have e1 : where_uuid
          { db with
            issued := db.issued ++
              (Stmt.insert (.audio_list
                  { uuid := u, name := name, context := context, hash := hash }) ::
                (create_audio_fingerprints_loop env u src 0).map
                  (fun p => Stmt.insert (.audio_fingerprint (fingerprint_row context p)))),
            audio_list := db.audio_list ++
              [{ uuid := u, name := name, context := context, hash := hash }],
            audio_fingerprint := db.audio_fingerprint ++
              (create_audio_fingerprints_loop env u src 0).map (fingerprint_row context) } u =
          where_uuid db u := rfl
      rw [e1, List.find?_append, hu]
      simp [where_uuid_of_no_quote db u huq]
    simp only [search_result, hrow, hfind, hcount, ← hlen]

/-- Witness of the amended C1: `clip_a.wav` added to `music` in a catalog that
holds `clip_c.wav`, then searched with 13 coefficients and tolerance 0. -/
theorem C1_self_match_without_tie_witness :
    (fp_craete_audio_list_info demo_env db_music_c uuid_2 "music" path_clip_a).1 = true ∧
      (fp_search_fingerprint_info demo_env
          (fp_craete_audio_list_info demo_env db_music_c uuid_2 "music" path_clip_a).2
          uuid_3 "music" path_clip_a 13 0).1 =
        some { uuid := uuid_2, name := "clip_a.wav", context := "music",
               hash := "0cc175b9c0f1b6a831c399e269772661", frame_count := 2,
               match_count := 2 } :=
  C1_self_match_without_tie demo_env db_music_c uuid_2 uuid_3 "music" path_clip_a
    "0cc175b9c0f1b6a831c399e269772661" "clip_a.wav"
    [(256, fun _ => 10), (256, fun i => if i.val = 0 then 100 else 10), (0, fun _ => 1)] 13 0
    (by decide) (by decide) (by decide) (by decide) (by decide) (by decide) (by decide)
    (by decide) rfl (by decide) (by decide) (by decide!) (by decide!) (by decide!)

/-- C1 as stated fails, in two ways. `clip_b.wav` (the audio of `clip_a.wav` in
other bytes) is in `music` as record `uuid_1`; adding `clip_a.wav` to `music`
creates the record `uuid_4`, yet the search of `clip_a.wav` in `music` with 13
coefficients and tolerance 0 returns the record `uuid_1`, both having 2 votes
out of 2 frames. `clip_a.wav` is added to the empty catalog and the store fails
the insert of its first frame: the record `uuid_1` is created, and the search
of `clip_a.wav` returns it with `match_count` 1 for `frame_count` 2. -/
theorem C1_counterexample :
    (fp_craete_audio_list_info demo_env db_music_b uuid_4 "music" path_clip_a).1 = true ∧
      (fp_craete_audio_list_info demo_env db_music_b uuid_4 "music"
          path_clip_a).2.audio_list.map (fun r => (r.uuid, r.context)) =
        [(uuid_1, "music"), (uuid_4, "music")] ∧
      (create_audio_fingerprints demo_env path_clip_a uuid_4).map List.length = some 2 ∧
      (fp_search_fingerprint_info demo_env
          (fp_craete_audio_list_info demo_env db_music_b uuid_4 "music" path_clip_a).2
          uuid_3 "music" path_clip_a 13 0).1 =
        some { uuid := uuid_1, name := "clip_b.wav", context := "music",
               hash := "92eb5ffee6ae2fec3ad71c777531578f", frame_count := 2,
               match_count := 2 } ∧
      (fp_craete_audio_list_info demo_env empty_db_second_fails uuid_1 "music"
        path_clip_a).1 = true ∧
      (fp_craete_audio_list_info demo_env empty_db_second_fails uuid_1 "music"
          path_clip_a).2.audio_list.map (fun r => (r.uuid, r.context)) = [(uuid_1, "music")] ∧
      (fp_search_fingerprint_info demo_env
          (fp_craete_audio_list_info demo_env empty_db_second_fails uuid_1 "music"
            path_clip_a).2
          uuid_3 "music" path_clip_a 13 0).1.map
            (fun r => (r.uuid, r.frame_count, r.match_count)) = some (uuid_1, 2, 1) := by
  refine ⟨by decide, by decide, by decide, by decide!, by decide, by decide, by decide!⟩

/-! ## Adding a clip under arbitrary outcomes -/

theorem insert_fingerprints_any_faults (context : String) (frames : List Frame) :
    ∀ db : Db,
      (insert_fingerprints context db frames).audio_fingerprint =
          db.audio_fingerprint ++
            (frames_inserted db.faults frames).map (fingerprint_row context) ∧
        (insert_fingerprints context db frames).audio_list = db.audio_list ∧
        (insert_fingerprints context db frames).context_list = db.context_list := by
  induction frames with
  | nil => intro db; simp [insert_fingerprints, frames_inserted]
  | cons p ps ih =>
    intro db
    simp only [insert_fingerprints, db_ctx_insert, frames_inserted]
    by_cases h : db.faults.head? = some true
    · rw [db_ctx_exec_of_fault db _ h, if_pos h]
      have := ih { db with
        faults := db.faults.tail,
        issued := db.issued ++ [.insert (.audio_fingerprint (fingerprint_row context p))] }
      simpa using this
    · rw [db_ctx_exec_of_effect db
        { db with
          faults := db.faults.tail,
          issued := db.issued ++ [.insert (.audio_fingerprint (fingerprint_row context p))],
          audio_fingerprint := db.audio_fingerprint ++ [fingerprint_row context p] }
        (.insert (.audio_fingerprint (fingerprint_row context p))) h rfl, if_neg h]
      have := ih { db with
        faults := db.faults.tail,
        issued := db.issued ++ [.insert (.audio_fingerprint (fingerprint_row context p))],
        audio_fingerprint := db.audio_fingerprint ++ [fingerprint_row context p] }
      simpa [List.append_assoc] using this

theorem insert_fingerprints_audio_list (context : String) (frames : List Frame) :
    ∀ db : Db, (insert_fingerprints context db frames).audio_list = db.audio_list ∧
      (insert_fingerprints context db frames).read_audio_list = db.read_audio_list := by
  induction frames with
  | nil => intro db; exact ⟨rfl, rfl⟩
  | cons p ps ih =>
    intro db
    simp only [insert_fingerprints, db_ctx_insert]
    rw [(ih _).1, (ih _).2]
    rcases db_ctx_exec_cases db (.insert (.audio_fingerprint (fingerprint_row context p)))
      with ⟨_, h⟩ | ⟨_, h⟩
    · rw [h]; exact ⟨rfl, rfl⟩
    · simp only [sql_effect, Option.some.injEq] at h
      rw [← h]; exact ⟨rfl, rfl⟩

/-- The add of a new clip whose `audio_list` row the store inserts, whatever the
outcomes of the frame inserts are. -/
theorem fp_craete_audio_list_info_new (env : Env) (db : Db)
    (uuid context filename hash name : String) (frames : List Frame)
    (hh : create_file_hash env filename = some hash)
    (hnew : get_audio_list_info_by_context_and_hash db context hash = none)
    (hname : env.basename_freed filename = some name)
    (hrow : db.faults.head? ≠ some true)
    (hex : create_audio_fingerprints env filename uuid = some frames) :
    (fp_craete_audio_list_info env db uuid context filename).1 = true ∧
      (fp_craete_audio_list_info env db uuid context filename).2.audio_list =
        db.audio_list ++ [{ uuid := uuid, name := name, context := context, hash := hash }] ∧
      (fp_craete_audio_list_info env db uuid context filename).2.audio_fingerprint =
        db.audio_fingerprint ++
          (frames_inserted db.faults.tail frames).map (fingerprint_row context) ∧
      (fp_craete_audio_list_info env db uuid context filename).2.read_audio_list =
        db.read_audio_list := by
  have e1 := db_ctx_exec_of_effect db
    { db with
      faults := db.faults.tail,
      issued := db.issued ++
        [.insert (.audio_list { uuid := uuid, name := name, context := context, hash := hash })],
      audio_list := db.audio_list ++
        [{ uuid := uuid, name := name, context := context, hash := hash }] }
    (.insert (.audio_list { uuid := uuid, name := name, context := context, hash := hash }))
    hrow rfl
  have e2 := insert_fingerprints_any_faults context frames
    { db with
      faults := db.faults.tail,
      issued := db.issued ++
        [.insert (.audio_list { uuid := uuid, name := name, context := context, hash := hash })],
      audio_list := db.audio_list ++
        [{ uuid := uuid, name := name, context := context, hash := hash }] }
  have e3 := insert_fingerprints_audio_list context frames
    { db with
      faults := db.faults.tail,
      issued := db.issued ++
        [.insert (.audio_list { uuid := uuid, name := name, context := context, hash := hash })],
      audio_list := db.audio_list ++
        [{ uuid := uuid, name := name, context := context, hash := hash }] }
  unfold fp_craete_audio_list_info create_audio_list_info create_audio_fingerprint_info
  simp only [hh, hnew, hname, db_ctx_insert, e1, hex]
  refine ⟨by simp, ?_, ?_, ?_⟩
  · simpa using e2.2.1
  · simpa using e2.1
  · simpa using e3.2

/-- C11 (amended): when `fp_craete_audio_list_info` has written the
`audio_list` row of a new clip (the base name is read back after the free and
the store executes the insert) and extraction succeeds, a fingerprint frame the
store fails to insert is skipped: the call reports success whatever the
outcomes of the frame inserts are, the `audio_list` row stays, and
`audio_fingerprint` gains exactly the frames whose insert the store executed. -/
theorem C11_failed_frame_insert_is_skipped (env : Env) (db : Db)
    (uuid context filename hash name : String) (frames : List Frame)
    (hh : create_file_hash env filename = some hash)
    (hnew : get_audio_list_info_by_context_and_hash db context hash = none)
    (hname : env.basename_freed filename = some name)
    (hrow : db.faults.head? ≠ some true)
    (hex : create_audio_fingerprints env filename uuid = some frames) :
    (fp_craete_audio_list_info env db uuid context filename).1 = true ∧
      (fp_craete_audio_list_info env db uuid context filename).2.audio_list =
        db.audio_list ++ [{ uuid := uuid, name := name, context := context, hash := hash }] ∧
      (fp_craete_audio_list_info env db uuid context filename).2.audio_fingerprint =
        db.audio_fingerprint ++
          (frames_inserted db.faults.tail frames).map (fingerprint_row context) := by
  have h := fp_craete_audio_list_info_new env db uuid context filename hash name frames
    hh hnew hname hrow hex
  exact ⟨h.1, h.2.1, h.2.2.1⟩

/-- Witness of the amended C11: `clip_a.wav` added to the empty catalog when
the store executes the insert of the `audio_list` row and fails the insert of
the first frame. -/
theorem C11_failed_frame_insert_is_skipped_witness :
    (fp_craete_audio_list_info demo_env empty_db_second_fails uuid_1 "music"
        path_clip_a).1 = true ∧
      (fp_craete_audio_list_info demo_env empty_db_second_fails uuid_1 "music"
        path_clip_a).2.audio_list =
        empty_db_second_fails.audio_list ++
          [{ uuid := uuid_1, name := "clip_a.wav", context := "music",
             hash := "0cc175b9c0f1b6a831c399e269772661" }] ∧
      (fp_craete_audio_list_info demo_env empty_db_second_fails uuid_1 "music"
        path_clip_a).2.audio_fingerprint =
        empty_db_second_fails.audio_fingerprint ++
          (frames_inserted empty_db_second_fails.faults.tail
            (create_audio_fingerprints_loop demo_env uuid_1
              [(256, fun _ => 10), (256, fun i => if i.val = 0 then 100 else 10),
                (0, fun _ => 1)] 0)).map (fingerprint_row "music") :=
  C11_failed_frame_insert_is_skipped demo_env empty_db_second_fails uuid_1 "music"
    path_clip_a "0cc175b9c0f1b6a831c399e269772661" "clip_a.wav"
    (create_audio_fingerprints_loop demo_env uuid_1
      [(256, fun _ => 10), (256, fun i => if i.val = 0 then 100 else 10), (0, fun _ => 1)] 0)
    (by decide) (by decide) (by decide) (by decide) rfl

/-- C11 as stated fails: `clip_a.wav` (two frames) is added to the empty
catalog, the store executes the insert of the `audio_list` row and fails the
insert of the first frame; `fp_craete_audio_list_info` reports success, the
record stays in `audio_list` and only the frame of index 1 is stored. -/
theorem C11_counterexample :
    empty_db_second_fails.audio_list = [] ∧
      (create_audio_fingerprints demo_env path_clip_a uuid_1).map List.length = some 2 ∧
      (fp_craete_audio_list_info demo_env empty_db_second_fails uuid_1 "music"
        path_clip_a).1 = true ∧
      (fp_craete_audio_list_info demo_env empty_db_second_fails uuid_1 "music"
        path_clip_a).2.audio_list.map (fun r => r.uuid) = [uuid_1] ∧
      (fp_craete_audio_list_info demo_env empty_db_second_fails uuid_1 "music"
        path_clip_a).2.audio_fingerprint.map
          (fun r => (r.audio_uuid, r.frame_idx)) = [(uuid_1, 1)] := by
  refine ⟨by decide, by decide, by decide, by decide, by decide⟩

/-- C10 fails on the code: `notes.txt` can be hashed but not decoded; adding it
to the empty catalog, under a path whose base name is read back after the
free, returns failure and leaves its record in `audio_list`: the compensating
`fp_delete_audio_list_info` is given the file name where the uuid is expected,
finds no such record and issues no delete (the insert of the record is the one
statement issued). -/
theorem C10_record_left_after_failed_extraction :
    create_file_hash demo_env path_notes = some "49f68a5c8493ec2c0bf489821c21fc3b" ∧
      (create_audio_fingerprints demo_env path_notes uuid_1).isNone = true ∧
      empty_db.audio_list = [] ∧
      (fp_craete_audio_list_info demo_env empty_db uuid_1 "music" path_notes).1 = false ∧
      (fp_craete_audio_list_info demo_env empty_db uuid_1 "music"
          path_notes).2.audio_list.map (fun r => (r.uuid, r.context, r.hash)) =
        [(uuid_1, "music", "49f68a5c8493ec2c0bf489821c21fc3b")] ∧
      (fp_craete_audio_list_info demo_env empty_db uuid_1 "music"
        path_notes).2.issued.length = 1 := by
  refine ⟨by decide, by decide, by decide, by decide, by decide, by decide⟩

/-- C8 as stated fails, in three ways. `notes.txt` has a content and a hash, yet
the first `fp_craete_audio_list_info` of it returns failure, because it is not
audio. The store fails the insert of the `audio_list` row of `clip_a.wav`: the
first call returns failure. The catalog already holds two records of
`clip_b.wav` in `music`: both calls return success and the catalog still holds
two records with that (context, hash). -/
theorem C8_counterexample :
    create_file_hash demo_env path_notes = some "49f68a5c8493ec2c0bf489821c21fc3b" ∧
      (create_audio_fingerprints demo_env path_notes uuid_1).isNone = true ∧
      (fp_craete_audio_list_info demo_env empty_db uuid_1 "prompts" path_notes).1 = false ∧
      (fp_craete_audio_list_info demo_env empty_db_first_fails uuid_1 "music"
        path_clip_a).1 = false ∧
      (fp_craete_audio_list_info demo_env db_music_b_twice uuid_3 "music" path_clip_b).1 =
        true ∧
      (fp_craete_audio_list_info demo_env
        (fp_craete_audio_list_info demo_env db_music_b_twice uuid_3 "music" path_clip_b).2
        uuid_4 "music" path_clip_b).1 = true ∧
      ((fp_craete_audio_list_info demo_env
        (fp_craete_audio_list_info demo_env db_music_b_twice uuid_3 "music" path_clip_b).2
        uuid_4 "music" path_clip_b).2.audio_list.filter
          (fun r => r.context == "music" &&
            r.hash == "92eb5ffee6ae2fec3ad71c777531578f")).length = 2 := by
  refine ⟨by decide, by decide, by decide, by decide, by decide, by decide, by decide⟩

/-! ## Deduplication -/

theorem hex_digit_ne_quote : ∀ n, n < 16 → hex_digit n ≠ Char.ofNat 39 := by decide

theorem has_quote_md5_hex (hash : List Nat) : has_quote (md5_hex hash) = false := by
  unfold has_quote md5_hex
  rw [List.any_eq_false]
  intro c hc
  simp only [List.mem_flatten, List.mem_map, List.mem_range] at hc
  rcases hc with ⟨l, ⟨i, _, rfl⟩, hcl⟩
  simp only [hex_byte, List.mem_cons, List.mem_singleton, List.not_mem_nil, or_false] at hcl
  rcases hcl with rfl | rfl
  · simpa using hex_digit_ne_quote _ (Nat.mod_lt _ (by norm_num))
  · simpa using hex_digit_ne_quote _ (Nat.mod_lt _ (by norm_num))

theorem where_context_and_hash_of_no_quote (db : Db) (context hash : String)
    (hc : has_quote context = false) (hh : has_quote hash = false) (r : AudioRow) :
    where_context_and_hash db context hash r = (r.context == context && r.hash == hash) := by
  simp [where_context_and_hash, select_where, hc, hh]

/-- C8 (amended): for a context that holds no quote, a content that can be
hashed and decoded, a first file whose base name is read back after the free, a
store that executes the insert of the `audio_list` row and a catalog holding at
most one record of that hash in the context, two calls of
`fp_craete_audio_list_info` with that content (under any two file names) and
that context both return success, the catalog then holds exactly one record
with that (context, hash), and the second call leaves the store as the first
left it. -/
theorem C8_dedup_idempotent (env : Env) (db : Db) (u1 u2 context f1 f2 name : String)
    (bytes : List Nat) (src : List (Nat × (Fin DEF_AUBIO_COEFS → ℚ)))
    (hq : has_quote context = false)
    (h1 : env.fopen f1 = some bytes) (h2 : env.fopen f2 = some bytes)
    (hname : env.basename_freed f1 = some name)
    (hsrc : env.aubio bytes = some src)
    (hrow : db.faults.head? ≠ some true)
    (hone : (db.audio_list.filter
      (fun r => r.context == context && r.hash == md5_hex (env.MD5 bytes))).length ≤ 1) :
    (fp_craete_audio_list_info env db u1 context f1).1 = true ∧
      (fp_craete_audio_list_info env (fp_craete_audio_list_info env db u1 context f1).2
        u2 context f2).1 = true ∧
      ((fp_craete_audio_list_info env (fp_craete_audio_list_info env db u1 context f1).2
        u2 context f2).2.audio_list.filter
          (fun r => r.context == context && r.hash == md5_hex (env.MD5 bytes))).length = 1 ∧
      (fp_craete_audio_list_info env (fp_craete_audio_list_info env db u1 context f1).2
        u2 context f2).2 = (fp_craete_audio_list_info env db u1 context f1).2 := by
  have hh1 : create_file_hash env f1 = some (md5_hex (env.MD5 bytes)) := by
    simp [create_file_hash, h1]
  have hh2 : create_file_hash env f2 = some (md5_hex (env.MD5 bytes)) := by
    simp [create_file_hash, h2]
  have hw : ∀ d : Db, where_context_and_hash d context (md5_hex (env.MD5 bytes)) =
      fun r => r.context == context && r.hash == md5_hex (env.MD5 bytes) := by
    intro d
    funext r
    exact where_context_and_hash_of_no_quote d _ _ hq (has_quote_md5_hex _) r
  cases hg : get_audio_list_info_by_context_and_hash db context (md5_hex (env.MD5 bytes)) with
  | some r =>
    rw [fp_craete_audio_list_info_exists env db u1 context f1 _ r hh1 hg]
    simp only
    rw [fp_craete_audio_list_info_exists env db u2 context f2 _ r hh2 hg]
    refine ⟨by trivial, by trivial, ?_, by trivial⟩
    have hg2 : db.audio_list.find?
        (fun r => r.context == context && r.hash == md5_hex (env.MD5 bytes)) = some r := by
      rw [← hw db]; exact hg
    have hp := List.find?_some hg2
    have hmem : r ∈ db.audio_list.filter
        (fun r => r.context == context && r.hash == md5_hex (env.MD5 bytes)) :=
      List.mem_filter.mpr ⟨List.mem_of_find?_eq_some hg2, hp⟩
    have hpos := List.length_pos_of_mem hmem
    exact Nat.le_antisymm hone hpos
  | none =>
    have hex : create_audio_fingerprints env f1 u1 =
        some (create_audio_fingerprints_loop env u1 src 0) := by
      simp [create_audio_fingerprints, h1, hsrc]
    have hnewc := fp_craete_audio_list_info_new env db u1 context f1 _ name _ hh1 hg hname
      hrow hex
    have hg2 : get_audio_list_info_by_context_and_hash
        (fp_craete_audio_list_info env db u1 context f1).2 context (md5_hex (env.MD5 bytes)) =
        some { uuid := u1, name := name, context := context,
               hash := md5_hex (env.MD5 bytes) } := by
      unfold get_audio_list_info_by_context_and_hash at hg ⊢
      rw [hw] at hg ⊢
      rw [hnewc.2.1, List.find?_append, hg]
      simp
    rw [fp_craete_audio_list_info_exists env _ u2 context f2 _ _ hh2 hg2]
    refine ⟨hnewc.1, by trivial, ?_, by trivial⟩
    have hnil : db.audio_list.filter
        (fun r => r.context == context && r.hash == md5_hex (env.MD5 bytes)) = [] := by
      rw [List.filter_eq_nil_iff]
      intro a ha
      unfold get_audio_list_info_by_context_and_hash at hg
      rw [hw] at hg
      exact List.find?_eq_none.mp hg a ha
    simp only
    rw [hnewc.2.1]
    simp [List.filter_append, hnil]

/-- Witness of the amended C8: `clip_a.wav` added twice to `music` in the
catalog holding `clip_c.wav`. -/
theorem C8_dedup_idempotent_witness :
    (fp_craete_audio_list_info demo_env db_music_c uuid_2 "music" path_clip_a).1 = true ∧
      (fp_craete_audio_list_info demo_env
        (fp_craete_audio_list_info demo_env db_music_c uuid_2 "music" path_clip_a).2
        uuid_3 "music" path_clip_a).1 = true ∧
      ((fp_craete_audio_list_info demo_env
        (fp_craete_audio_list_info demo_env db_music_c uuid_2 "music" path_clip_a).2
        uuid_3 "music" path_clip_a).2.audio_list.filter
          (fun r => r.context == "music" && r.hash == md5_hex (demo_env.MD5 bytes_a))).length =
        1 ∧
      (fp_craete_audio_list_info demo_env
        (fp_craete_audio_list_info demo_env db_music_c uuid_2 "music" path_clip_a).2
        uuid_3 "music" path_clip_a).2 =
        (fp_craete_audio_list_info demo_env db_music_c uuid_2 "music" path_clip_a).2 :=
  C8_dedup_idempotent demo_env db_music_c uuid_2 uuid_3 "music" path_clip_a path_clip_a
    "clip_a.wav" bytes_a
    [(256, fun _ => 10), (256, fun i => if i.val = 0 then 100 else 10), (0, fun _ => 1)]
    (by decide) (by decide) (by decide) (by decide) rfl (by decide) (by decide)
/-! ## Removing a clip -/

theorem where_audio_uuid_of_no_quote (db : Db) (audio_uuid : String)
    (h : has_quote audio_uuid = false) (r : FpRow) :
    where_audio_uuid db audio_uuid r = (r.audio_uuid == audio_uuid) := by
  simp [where_audio_uuid, select_where, h]

/-- The removal of an absent uuid. -/
theorem fp_delete_audio_list_info_absent (db : Db) (uuid : String)
    (h : get_audio_list_info db uuid = none) :
    fp_delete_audio_list_info db uuid = (false, db) := by
  unfold fp_delete_audio_list_info
  rw [h]

/-- The removal of a present uuid when the store fails the first delete. -/
theorem fp_delete_audio_list_info_first_fails (db : Db) (uuid : String)
    (hex : get_audio_list_info db uuid ≠ none) (h1 : db.faults.head? = some true) :
    fp_delete_audio_list_info db uuid =
      (false, { db with faults := db.faults.tail,
                        issued := db.issued ++ [.delete_audio_list uuid] }) := by
  unfold fp_delete_audio_list_info
  cases hg : get_audio_list_info db uuid with
  | none => exact absurd hg hex
  | some r =>
    simp only
    rw [db_ctx_exec_of_fault db _ h1]
    simp

/-- The removal of a present uuid when the store executes the first delete. -/
theorem fp_delete_audio_list_info_first_executes (db : Db) (uuid : String)
    (hex : get_audio_list_info db uuid ≠ none) (h1 : db.faults.head? ≠ some true) :
    fp_delete_audio_list_info db uuid =
      if db.faults.tail.head? = some true then
        (false, { db with
          faults := db.faults.tail.tail,
          issued := db.issued ++ [.delete_audio_list uuid, .delete_audio_fingerprint uuid],
          audio_list := db.audio_list.filter (fun r => !where_uuid db uuid r) })
      else
        (true, { db with
          faults := db.faults.tail.tail,
          issued := db.issued ++ [.delete_audio_list uuid, .delete_audio_fingerprint uuid],
          audio_list := db.audio_list.filter (fun r => !where_uuid db uuid r),
          audio_fingerprint := db.audio_fingerprint.filter (fun r => !where_audio_uuid db uuid r) }) := by
  have e1 : db_ctx_exec db (.delete_audio_list uuid) =
      (true, { db with
        faults := db.faults.tail, issued := db.issued ++ [.delete_audio_list uuid],
        audio_list := db.audio_list.filter (fun r => !where_uuid db uuid r) }) :=
    db_ctx_exec_of_effect db _ _ h1 rfl
  unfold fp_delete_audio_list_info
  cases hg : get_audio_list_info db uuid with
  | none => exact absurd hg hex
  | some r =>
    simp only [e1]
    by_cases h2 : db.faults.tail.head? = some true
    · rw [if_pos h2]
      have e2 := db_ctx_exec_of_fault
        { db with
          faults := db.faults.tail, issued := db.issued ++ [.delete_audio_list uuid],
          audio_list := db.audio_list.filter (fun r => !where_uuid db uuid r) }
        (.delete_audio_fingerprint uuid) h2
      simp [e2]
    · rw [if_neg h2]
      have e2 := db_ctx_exec_of_effect
        { db with
          faults := db.faults.tail, issued := db.issued ++ [.delete_audio_list uuid],
          audio_list := db.audio_list.filter (fun r => !where_uuid db uuid r) }
        { db with
          faults := db.faults.tail.tail,
          issued := db.issued ++ [.delete_audio_list uuid] ++ [.delete_audio_fingerprint uuid],
          audio_list := db.audio_list.filter (fun r => !where_uuid db uuid r),
          audio_fingerprint := db.audio_fingerprint.filter (fun r => !where_audio_uuid db uuid r) }
        (.delete_audio_fingerprint uuid) h2 rfl
      simp [e2]

/-- The removal of a uuid that holds no quote: on a uuid that no `audio_list`
row has it fails and leaves the store as it was; on a uuid that a row has, when
the store executes both statements, it succeeds, `audio_list` loses exactly the
rows of that uuid and `audio_fingerprint` exactly the rows of that `audio_uuid`,
and `context_list` and the scratch tables are unchanged. -/
theorem fp_delete_audio_list_info_of_no_quote (db : Db) (uuid : String)
    (hq : has_quote uuid = false) :
    ((∀ r ∈ db.audio_list, r.uuid ≠ uuid) →
      fp_delete_audio_list_info db uuid = (false, db)) ∧
    ((∃ r ∈ db.audio_list, r.uuid = uuid) →
      db.faults.head? ≠ some true → db.faults.tail.head? ≠ some true →
      (fp_delete_audio_list_info db uuid).1 = true ∧
      (fp_delete_audio_list_info db uuid).2.audio_list =
        db.audio_list.filter (fun r => r.uuid != uuid) ∧
      (fp_delete_audio_list_info db uuid).2.audio_fingerprint =
        db.audio_fingerprint.filter (fun r => r.audio_uuid != uuid) ∧
      (fp_delete_audio_list_info db uuid).2.context_list = db.context_list ∧
      (fp_delete_audio_list_info db uuid).2.scratch = db.scratch) := by
  have hw : where_uuid db uuid = fun r => r.uuid == uuid := by
    funext r; exact where_uuid_of_no_quote db uuid hq r
  have hw2 : where_audio_uuid db uuid = fun r => r.audio_uuid == uuid := by
    funext r; exact where_audio_uuid_of_no_quote db uuid hq r
  constructor
  · intro habs
    apply fp_delete_audio_list_info_absent
    unfold get_audio_list_info
    rw [hw, List.find?_eq_none]
    intro r hr
    simpa using habs r hr
  · rintro ⟨r, hr, hru⟩ h1 h2
    have hex : get_audio_list_info db uuid ≠ none := by
      unfold get_audio_list_info
      rw [hw]
      intro hnone
      have := List.find?_eq_none.mp hnone r hr
      simp [hru] at this
    rw [fp_delete_audio_list_info_first_executes db uuid hex h1, if_neg h2]
    simp only [hw, hw2]
    exact ⟨trivial, rfl, rfl, trivial, trivial⟩

/-- C12 fails on the code: no `audio_list` row of the catalog has the uuid
`x' or '1'='1`, a text with quotes; the clause `uuid = '%s'` built from it
selects every row, so `fp_delete_audio_list_info` finds a record, deletes every
`audio_list` row and every `audio_fingerprint` row, and returns success. -/
theorem C12_quoted_uuid_removes_every_record :
    (∀ r ∈ db_two_contexts.audio_list, r.uuid ≠ quoted_text) ∧
      db_two_contexts.audio_list.map (fun r => r.uuid) = [uuid_1, uuid_2] ∧
      db_two_contexts.audio_fingerprint.map (fun r => r.audio_uuid) =
        [uuid_1, uuid_1, uuid_2] ∧
      (fp_delete_audio_list_info db_two_contexts quoted_text).1 = true ∧
      (fp_delete_audio_list_info db_two_contexts quoted_text).2.audio_list = [] ∧
      (fp_delete_audio_list_info db_two_contexts quoted_text).2.audio_fingerprint.length = 0 := by
  refine ⟨by decide, by decide, by decide, by decide, by decide, by decide⟩

/-- C13 (amended): for a uuid that has an `audio_list` row,
`fp_delete_audio_list_info` issues the delete of the `audio_list` row first;
when the store fails it, the call reports failure at once, the delete of the
`audio_fingerprint` rows is not issued and no table changes; when the store
executes it, the delete of the `audio_fingerprint` rows is issued next, and the
call reports failure exactly when that second delete fails. -/
theorem C13_removal_stops_at_first_failure (db : Db) (uuid : String)
    (hex : get_audio_list_info db uuid ≠ none) :
    (db.faults.head? = some true →
      fp_delete_audio_list_info db uuid =
        (false, { db with faults := db.faults.tail,
                          issued := db.issued ++ [.delete_audio_list uuid] })) ∧
    (db.faults.head? ≠ some true →
      (fp_delete_audio_list_info db uuid).2.issued =
        db.issued ++ [.delete_audio_list uuid, .delete_audio_fingerprint uuid] ∧
      ((fp_delete_audio_list_info db uuid).1 = false ↔ db.faults.tail.head? = some true)) := by
  constructor
  · exact fp_delete_audio_list_info_first_fails db uuid hex
  · intro h1
    rw [fp_delete_audio_list_info_first_executes db uuid hex h1]
    by_cases h2 : db.faults.tail.head? = some true
    · rw [if_pos h2]
      exact ⟨rfl, fun _ => h2, fun _ => rfl⟩
    · rw [if_neg h2]
      refine ⟨rfl, fun h => ?_, fun h => absurd h h2⟩
      simp at h

/-- Witness of the amended C13: the removal of `clip_b.wav` when the store
fails the first delete, and when it executes the first and fails the second. -/
theorem C13_removal_stops_at_first_failure_witness :
    fp_delete_audio_list_info db_music_b_first_fails uuid_1 =
        (false, { db_music_b_first_fails with
          faults := db_music_b_first_fails.faults.tail,
          issued := db_music_b_first_fails.issued ++ [.delete_audio_list uuid_1] }) ∧
      ((fp_delete_audio_list_info db_music_b_second_fails uuid_1).2.issued =
        db_music_b_second_fails.issued ++
          [.delete_audio_list uuid_1, .delete_audio_fingerprint uuid_1] ∧
      ((fp_delete_audio_list_info db_music_b_second_fails uuid_1).1 = false ↔
        db_music_b_second_fails.faults.tail.head? = some true)) :=
  ⟨(C13_removal_stops_at_first_failure db_music_b_first_fails uuid_1 (by decide)).1
      (by decide),
    (C13_removal_stops_at_first_failure db_music_b_second_fails uuid_1 (by decide)).2
      (by decide)⟩

/-- C13 as stated fails: `clip_b.wav` is in the catalog with its two frames and
the store fails the delete of its `audio_list` row; `fp_delete_audio_list_info`
reports failure after that one statement, no delete of the `audio_fingerprint`
rows is among the statements issued, and the two frames are still stored. -/
theorem C13_counterexample :
    (get_audio_list_info db_music_b_first_fails uuid_1).isSome = true ∧
      (fp_delete_audio_list_info db_music_b_first_fails uuid_1).1 = false ∧
      (fp_delete_audio_list_info db_music_b_first_fails uuid_1).2.issued.length =
        db_music_b_first_fails.issued.length + 1 ∧
      (fp_delete_audio_list_info db_music_b_first_fails uuid_1).2.issued.any
        (Stmt.deletes_fingerprints uuid_1) = false ∧
      (fp_delete_audio_list_info db_music_b_first_fails uuid_1).2.audio_fingerprint.map
        (fun r => r.audio_uuid) = [uuid_1, uuid_1] := by
  refine ⟨by decide, by decide, by decide, by decide, by decide⟩

/-! ## Contexts -/

/-- C15 fails on the code: the context `music` exists; adding `music` again
with `replace = false` returns success and `context_list` then holds two rows
named `music`. -/
theorem C15_duplicate_context_accepted :
    db_context_music.context_list = [{ name := "music", directory := "/srv/audio/music" }] ∧
      (fp_create_context_list_info db_context_music "music" "/srv/audio/other" false).1 =
        true ∧
      (fp_create_context_list_info db_context_music "music" "/srv/audio/other"
          false).2.context_list =
        [{ name := "music", directory := "/srv/audio/music" },
          { name := "music", directory := "/srv/audio/other" }] := by
  refine ⟨by decide, by decide, by decide⟩

/-! ## Frame numbering -/

theorem create_audio_fingerprints_loop_eq (env : Env) (uuid : String)
    (src : List (Nat × (Fin DEF_AUBIO_COEFS → ℚ))) :
    ∀ k : Nat, create_audio_fingerprints_loop env uuid src k =
      ((src.takeWhile (fun r => r.1 != 0)).enumFrom k).map
        (fun jr => { frame_idx := jr.1, audio_uuid := uuid,
                     max := fun i => env.dB (jr.2.2 i) }) := by
  induction src with
  | nil => intro k; simp [create_audio_fingerprints_loop]
  | cons a rest ih =>
    intro k
    obtain ⟨reads, mfcc_out⟩ := a
    simp only [create_audio_fingerprints_loop, List.takeWhile_cons]
    by_cases h : reads = 0
    · simp [h]
    · simp [h, ih (k + 1), List.enumFrom_cons]

theorem create_audio_fingerprints_loop_frame_idx (env : Env) (uuid : String)
    (src : List (Nat × (Fin DEF_AUBIO_COEFS → ℚ))) :
    ∀ k : Nat, (create_audio_fingerprints_loop env uuid src k).map (fun p => p.frame_idx) =
      List.range' k (create_audio_fingerprints_loop env uuid src k).length := by
  induction src with
  | nil => intro k; simp [create_audio_fingerprints_loop]
  | cons a rest ih =>
    intro k
    obtain ⟨reads, mfcc_out⟩ := a
    simp only [create_audio_fingerprints_loop]
    by_cases h : reads = 0
    · simp [h]
    · simp [h, ih (k + 1), List.range'_succ]

/-- C17: when `create_audio_fingerprints` succeeds, its result holds one frame
per read of the source made before the first read of zero samples, in read
order; the frame at position j has `frame_idx` j, the uuid passed in and the
rescaled coefficients of the j-th read, so the `frame_idx` values are
0, 1, ..., n-1; and every record returned by a search of that file reports
`frame_count` n. -/
theorem C17_frame_numbering (env : Env) (filename uuid : String) (frames : List Frame)
    (hex : create_audio_fingerprints env filename uuid = some frames) :
    ∃ src : List (Nat × (Fin DEF_AUBIO_COEFS → ℚ)),
      (env.fopen filename).bind env.aubio = some src ∧
      frames = ((src.takeWhile (fun r => r.1 != 0)).enum).map
        (fun jr => { frame_idx := jr.1, audio_uuid := uuid,
                     max := fun i => env.dB (jr.2.2 i) }) ∧
      frames.length = (src.takeWhile (fun r => r.1 != 0)).length ∧
      frames.map (fun p => p.frame_idx) = List.range frames.length ∧
      (∀ p ∈ frames, p.audio_uuid = uuid) ∧
      ∀ (db : Db) (s context : String) (coefs : Int) (tolerance : ℚ) (res : SearchResult),
        (fp_search_fingerprint_info env db s context filename coefs tolerance).1 = some res →
          res.frame_count = frames.length := by
  unfold create_audio_fingerprints at hex
  cases hsrc : (env.fopen filename).bind env.aubio with
  | none => rw [hsrc] at hex; simp at hex
  | some src =>
    rw [hsrc] at hex
    simp only [Option.some.injEq] at hex
    subst hex
    refine ⟨src, rfl, ?_, ?_, ?_, ?_, ?_⟩
    · exact create_audio_fingerprints_loop_eq env uuid src 0
    · rw [create_audio_fingerprints_loop_eq env uuid src 0]
      simp
    · rw [create_audio_fingerprints_loop_frame_idx env uuid src 0, List.range_eq_range']
    · exact create_audio_fingerprints_loop_uuid env uuid src 0
    · intro db s context coefs tolerance res hres
      have hC : 1 ≤ coefs ∧ coefs ≤ 13 := by
        by_contra hC
        have hC2 : coefs < 1 ∨ coefs > 13 := by omega
        rw [fp_search_fingerprint_info_invalid env db s context filename coefs tolerance hC2]
          at hres
        simp at hres
      have hexs : create_audio_fingerprints env filename s =
          some (create_audio_fingerprints_loop env s src 0) := by
        simp [create_audio_fingerprints, hsrc]
      rw [fp_search_fingerprint_info_valid env db s context filename coefs tolerance hC] at hres
      split at hres
      · simp at hres
      · rw [hexs] at hres
        simp only at hres
        rcases search_result_some _ _ _ _ hres with ⟨_, _, _, _, hn, _, _⟩
        rw [hn]
        exact create_audio_fingerprints_loop_length env s uuid src 0

/-- Witness of C17: the two frames of `clip_a.wav`. -/
theorem C17_frame_numbering_witness :
    ∃ src : List (Nat × (Fin DEF_AUBIO_COEFS → ℚ)),
      (demo_env.fopen "/srv/audio/clip_a.wav").bind demo_env.aubio = some src ∧
      create_audio_fingerprints_loop demo_env uuid_1
          [(256, fun _ => 10), (256, fun i => if i.val = 0 then 100 else 10), (0, fun _ => 1)] 0 =
        ((src.takeWhile (fun r => r.1 != 0)).enum).map
          (fun jr => { frame_idx := jr.1, audio_uuid := uuid_1,
                       max := fun i => demo_env.dB (jr.2.2 i) }) ∧
      (create_audio_fingerprints_loop demo_env uuid_1
          [(256, fun _ => 10), (256, fun i => if i.val = 0 then 100 else 10),
            (0, fun _ => 1)] 0).length = (src.takeWhile (fun r => r.1 != 0)).length ∧
      (create_audio_fingerprints_loop demo_env uuid_1
          [(256, fun _ => 10), (256, fun i => if i.val = 0 then 100 else 10),
            (0, fun _ => 1)] 0).map (fun p => p.frame_idx) =
        List.range (create_audio_fingerprints_loop demo_env uuid_1
          [(256, fun _ => 10), (256, fun i => if i.val = 0 then 100 else 10),
            (0, fun _ => 1)] 0).length ∧
      (∀ p ∈ create_audio_fingerprints_loop demo_env uuid_1
          [(256, fun _ => 10), (256, fun i => if i.val = 0 then 100 else 10), (0, fun _ => 1)] 0,
        p.audio_uuid = uuid_1) ∧
      ∀ (db : Db) (s context : String) (coefs : Int) (tolerance : ℚ) (res : SearchResult),
        (fp_search_fingerprint_info demo_env db s context "/srv/audio/clip_a.wav" coefs
          tolerance).1 = some res →
          res.frame_count = (create_audio_fingerprints_loop demo_env uuid_1
            [(256, fun _ => 10), (256, fun i => if i.val = 0 then 100 else 10),
              (0, fun _ => 1)] 0).length :=
  C17_frame_numbering demo_env "/srv/audio/clip_a.wav" uuid_1
    (create_audio_fingerprints_loop demo_env uuid_1
      [(256, fun _ => 10), (256, fun i => if i.val = 0 then 100 else 10), (0, fun _ => 1)] 0)
    rfl

/-! ## What a search leaves behind -/

theorem db_ctx_exec_scratch_other (db : Db) (sql : Stmt) (t t2 : String)
    (hsql : sql = .create_table t ∨ sql = .drop_table t ∨ ∃ c, sql = .insert_select t c)
    (ht : t2 ≠ t) : (db_ctx_exec db sql).2.scratch t2 = db.scratch t2 := by
  rcases db_ctx_exec_cases db sql with ⟨_, h⟩ | ⟨_, h⟩
  · rw [h]
  · rcases hsql with rfl | rfl | ⟨c, rfl⟩
    · simp only [sql_effect] at h
      split at h
      · simp at h
      · simp only [Option.some.injEq] at h
        rw [← h]
        simp [Function.update_noteq ht]
    · simp only [sql_effect] at h
      split at h
      · simp at h
      · simp only [Option.some.injEq] at h
        rw [← h]
        simp [Function.update_noteq ht]
    · simp only [sql_effect] at h
      split at h
      · simp at h
      · simp only [Option.some.injEq] at h
        rw [← h]
        simp [Function.update_noteq ht]

theorem db_ctx_exec_false_scratch (db : Db) (sql : Stmt) (h : (db_ctx_exec db sql).1 = false) :
    (db_ctx_exec db sql).2.scratch = db.scratch := by
  rcases db_ctx_exec_cases db sql with ⟨_, h2⟩ | ⟨h1, _⟩
  · rw [h2]
  · rw [h1] at h
    exact absurd h (by simp)

theorem db_ctx_exec_drop_table_scratch (db : Db) (t : String)
    (h : db.faults.head? ≠ some true) :
    (db_ctx_exec db (.drop_table t)).2.scratch t = none := by
  cases hs : db.scratch t with
  | none =>
    have he : sql_effect
        { db with faults := db.faults.tail, issued := db.issued ++ [.drop_table t] }
        (.drop_table t) = none := by
      simp [sql_effect, hs]
    rcases db_ctx_exec_cases db (.drop_table t) with ⟨_, h2⟩ | ⟨_, h2⟩
    · rw [h2]; exact hs
    · rw [he] at h2
      simp at h2
  | some rows =>
    rw [db_ctx_exec_of_effect db
      { db with faults := db.faults.tail, issued := db.issued ++ [.drop_table t],
                scratch := Function.update db.scratch t none }
      (.drop_table t) h (by simp [sql_effect, hs])]
    simp

theorem search_loop_faults (t : String) (coefs : Int) (tole : ℚ) (probe : List Frame) :
    ∀ db : Db, (search_loop t coefs tole db probe).faults = db.faults.drop probe.length := by
  induction probe with
  | nil => intro db; simp [search_loop]
  | cons p ps ih =>
    intro db
    simp only [search_loop]
    rw [ih, db_ctx_exec_faults]
    simp [List.drop_succ_cons, List.tail_drop]

theorem search_loop_scratch_other (t t2 : String) (coefs : Int) (tole : ℚ)
    (probe : List Frame) (ht : t2 ≠ t) :
    ∀ db : Db, (search_loop t coefs tole db probe).scratch t2 = db.scratch t2 := by
  induction probe with
  | nil => intro db; simp [search_loop]
  | cons p ps ih =>
    intro db
    simp only [search_loop]
    rw [ih]
    exact db_ctx_exec_scratch_other db _ t t2 (Or.inr (Or.inr ⟨_, rfl⟩)) ht

/-- C16: whatever the store, the file, the arguments and the outcomes of the
statements are, `fp_search_fingerprint_info` leaves `context_list`,
`audio_list`, `audio_fingerprint` and every scratch table other than its own
unchanged; when it creates no scratch table (coefficient count out of range,
or creation failed) no scratch table changes at all; when it creates one, the
last statement it issues is the drop of that table, on every later exit path,
and the table is gone once the store executes that drop. -/
theorem C16_search_leaves_store (env : Env) (db : Db) (uuid context filename : String)
    (coefs : Int) (tolerance : ℚ) :
    (fp_search_fingerprint_info env db uuid context filename coefs tolerance).2.context_list =
        db.context_list ∧
      (fp_search_fingerprint_info env db uuid context filename coefs tolerance).2.audio_list =
        db.audio_list ∧
      (fp_search_fingerprint_info env db uuid context filename coefs
        tolerance).2.audio_fingerprint = db.audio_fingerprint ∧
      (∀ t : String, t ≠ scratch_name uuid →
        (fp_search_fingerprint_info env db uuid context filename coefs tolerance).2.scratch t =
          db.scratch t) ∧
      (((coefs < 1 ∨ coefs > 13) ∨
          (db_ctx_exec db (.create_table (scratch_name uuid))).1 = false) →
        (fp_search_fingerprint_info env db uuid context filename coefs tolerance).2.scratch =
          db.scratch) ∧
      ((1 ≤ coefs ∧ coefs ≤ 13) →
        (db_ctx_exec db (.create_table (scratch_name uuid))).1 = true →
        (fp_search_fingerprint_info env db uuid context filename coefs
            tolerance).2.issued.getLast? = some (.drop_table (scratch_name uuid)) ∧
          ((db.faults.drop
              (1 + ((create_audio_fingerprints env filename uuid).getD []).length)).head? ≠
              some true →
            (fp_search_fingerprint_info env db uuid context filename coefs tolerance).2.scratch
              (scratch_name uuid) = none)) := by
  by_cases hC : 1 ≤ coefs ∧ coefs ≤ 13
  · rw [fp_search_fingerprint_info_valid env db uuid context filename coefs tolerance hC]
    have hc := db_ctx_exec_on_scratch db (.create_table (scratch_name uuid)) rfl
    by_cases hct : (db_ctx_exec db (.create_table (scratch_name uuid))).1 = false
    · rw [if_pos hct]
      refine ⟨hc.1, hc.2.1, hc.2.2, ?_, ?_, ?_⟩
      · intro t ht
        exact db_ctx_exec_scratch_other db _ _ t (Or.inl rfl) ht
      · intro _
        exact db_ctx_exec_false_scratch db _ hct
      · intro _ hct2
        rw [hct] at hct2
        exact absurd hct2 (by simp)
    · rw [if_neg hct]
      cases hex : create_audio_fingerprints env filename uuid with
      | none =>
        simp only
        have hd := db_ctx_exec_on_scratch
          (db_ctx_exec db (.create_table (scratch_name uuid))).2
          (.drop_table (scratch_name uuid)) rfl
        refine ⟨hd.1.trans hc.1, hd.2.1.trans hc.2.1, hd.2.2.trans hc.2.2, ?_, ?_, ?_⟩
        · intro t ht
          rw [db_ctx_exec_scratch_other _ _ _ t (Or.inr (Or.inl rfl)) ht]
          exact db_ctx_exec_scratch_other db _ _ t (Or.inl rfl) ht
        · rintro (h | h)
          · omega
          · exact absurd h hct
        · intro _ _
          refine ⟨by simp [db_ctx_exec_issued], ?_⟩
          intro hdrop
          apply db_ctx_exec_drop_table_scratch
          rw [db_ctx_exec_faults]
          simpa [List.drop_one] using hdrop
      | some probe =>
        simp only
        have hl := search_loop_tables (scratch_name uuid) coefs (search_tolerance tolerance)
          probe (db_ctx_exec db (.create_table (scratch_name uuid))).2
        have hd := db_ctx_exec_on_scratch
          (search_loop (scratch_name uuid) coefs (search_tolerance tolerance)
            (db_ctx_exec db (.create_table (scratch_name uuid))).2 probe)
          (.drop_table (scratch_name uuid)) rfl
        refine ⟨hd.1.trans (hl.1.trans hc.1), hd.2.1.trans (hl.2.1.trans hc.2.1),
          hd.2.2.trans (hl.2.2.trans hc.2.2), ?_, ?_, ?_⟩
        · intro t ht
          rw [db_ctx_exec_scratch_other _ _ _ t (Or.inr (Or.inl rfl)) ht,
            search_loop_scratch_other _ t _ _ _ ht]
          exact db_ctx_exec_scratch_other db _ _ t (Or.inl rfl) ht
        · rintro (h | h)
          · omega
          · exact absurd h hct
        · intro _ _
          refine ⟨by simp [db_ctx_exec_issued], ?_⟩
          intro hdrop
          apply db_ctx_exec_drop_table_scratch
          rw [search_loop_faults, db_ctx_exec_faults]
          simpa [List.drop_one, List.drop_drop, Nat.add_comm] using hdrop
  · have hC2 : coefs < 1 ∨ coefs > 13 := by omega
    rw [fp_search_fingerprint_info_invalid env db uuid context filename coefs tolerance hC2]
    refine ⟨rfl, rfl, rfl, fun _ _ => rfl, fun _ => rfl, fun h => absurd h hC⟩

/-- Witness of C16: the search of `clip_a.wav` with one coefficient when the
store executes the creation of the scratch table and fails the first query,
and the same search with the coefficient count 0. -/
theorem C16_search_leaves_store_witness :
    ((fp_search_fingerprint_info demo_env db_music_b_second_fails uuid_3 "music"
          "/srv/audio/clip_a.wav" 1 0).2.context_list = db_music_b_second_fails.context_list ∧
        (fp_search_fingerprint_info demo_env db_music_b_second_fails uuid_3 "music"
          "/srv/audio/clip_a.wav" 1 0).2.audio_list = db_music_b_second_fails.audio_list ∧
        (fp_search_fingerprint_info demo_env db_music_b_second_fails uuid_3 "music"
          "/srv/audio/clip_a.wav" 1 0).2.audio_fingerprint =
          db_music_b_second_fails.audio_fingerprint) ∧
      ((fp_search_fingerprint_info demo_env db_music_b_second_fails uuid_3 "music"
          "/srv/audio/clip_a.wav" 1 0).2.issued.getLast? =
          some (.drop_table (scratch_name uuid_3)) ∧
        (fp_search_fingerprint_info demo_env db_music_b_second_fails uuid_3 "music"
          "/srv/audio/clip_a.wav" 1 0).2.scratch (scratch_name uuid_3) = none) ∧
      (fp_search_fingerprint_info demo_env db_music_b_second_fails uuid_3 "music"
        "/srv/audio/clip_a.wav" 0 0).2.scratch = db_music_b_second_fails.scratch :=
  have h := C16_search_leaves_store demo_env db_music_b_second_fails uuid_3 "music"
    "/srv/audio/clip_a.wav" 1 0
  have h0 := C16_search_leaves_store demo_env db_music_b_second_fails uuid_3 "music"
    "/srv/audio/clip_a.wav" 0 0
  ⟨⟨h.1, h.2.1, h.2.2.1⟩,
    ⟨(h.2.2.2.2.2 (by decide) (by decide)).1,
      (h.2.2.2.2.2 (by decide) (by decide)).2 (by decide)⟩,
    h0.2.2.2.2.1 (Or.inl (Or.inl (by decide)))⟩

/-! ## Removing a context -/

theorem where_name_of_no_quote (db : Db) (name : String) (h : has_quote name = false)
    (r : ContextRow) : where_name db name r = (r.name == name) := by
  simp [where_name, select_where, h]

theorem where_context_of_no_quote (db : Db) (name : String) (h : has_quote name = false)
    (r : AudioRow) : where_context db name r = (r.context == name) := by
  simp [where_context, select_where, h]

theorem fp_delete_audio_list_info_step (db : Db) (uuid : String) (hf : db.faults = [])
    (hq : has_quote uuid = false)
    (hclean : get_audio_list_info db uuid = none →
      ∀ f ∈ db.audio_fingerprint, f.audio_uuid ≠ uuid) :
    (fp_delete_audio_list_info db uuid).2.faults = [] ∧
      (fp_delete_audio_list_info db uuid).2.context_list = db.context_list ∧
      (fp_delete_audio_list_info db uuid).2.scratch = db.scratch ∧
      (fp_delete_audio_list_info db uuid).2.read_audio_list = db.read_audio_list ∧
      (fp_delete_audio_list_info db uuid).2.read_context_list = db.read_context_list ∧
      (fp_delete_audio_list_info db uuid).2.audio_list =
        db.audio_list.filter (fun a => a.uuid != uuid) ∧
      (fp_delete_audio_list_info db uuid).2.audio_fingerprint =
        db.audio_fingerprint.filter (fun f => f.audio_uuid != uuid) := by
  have hw : where_uuid db uuid = fun r => r.uuid == uuid := by
    funext r; exact where_uuid_of_no_quote db uuid hq r
  have hw2 : where_audio_uuid db uuid = fun r => r.audio_uuid == uuid := by
    funext r; exact where_audio_uuid_of_no_quote db uuid hq r
  by_cases hg : get_audio_list_info db uuid = none
  · rw [fp_delete_audio_list_info_absent db uuid hg]
    refine ⟨hf, rfl, rfl, rfl, rfl, ?_, ?_⟩
    · symm
      rw [List.filter_eq_self]
      intro a ha
      unfold get_audio_list_info at hg
      rw [hw] at hg
      have h := List.find?_eq_none.mp hg a ha
      simpa using h
    · symm
      rw [List.filter_eq_self]
      intro f hfp
      simpa using hclean hg f hfp
  · rw [fp_delete_audio_list_info_first_executes db uuid hg (by simp [hf])]
    rw [if_neg (by simp [hf])]
    simp only [hw, hw2]
    exact ⟨by simp [hf], trivial, trivial, trivial, trivial, rfl, rfl⟩

theorem delete_audio_lists_no_faults (rows : List AudioRow) :
    ∀ db : Db, db.faults = [] → (∀ r ∈ rows, has_quote r.uuid = false) →
      (∀ r ∈ rows, get_audio_list_info db r.uuid = none →
        ∀ f ∈ db.audio_fingerprint, f.audio_uuid ≠ r.uuid) →
      (delete_audio_lists db rows).faults = [] ∧
        (delete_audio_lists db rows).context_list = db.context_list ∧
        (delete_audio_lists db rows).scratch = db.scratch ∧
        (delete_audio_lists db rows).read_audio_list = db.read_audio_list ∧
        (delete_audio_lists db rows).read_context_list = db.read_context_list ∧
        (delete_audio_lists db rows).audio_list =
          db.audio_list.filter (fun a => !rows.any (fun r => a.uuid == r.uuid)) ∧
        (delete_audio_lists db rows).audio_fingerprint =
          db.audio_fingerprint.filter (fun f => !rows.any (fun r => f.audio_uuid == r.uuid)) := by
  induction rows with
  | nil => intro db hf _ _; simp [delete_audio_lists, hf]
  | cons r rest ih =>
    intro db hf hq hclean
    have hqr := hq r (List.mem_cons_self _ _)
    have hstep := fp_delete_audio_list_info_step db r.uuid hf hqr
      (hclean r (List.mem_cons_self _ _))
    simp only [delete_audio_lists]
    have hclean2 : ∀ r2 ∈ rest,
        get_audio_list_info (fp_delete_audio_list_info db r.uuid).2 r2.uuid = none →
        ∀ f ∈ (fp_delete_audio_list_info db r.uuid).2.audio_fingerprint,
          f.audio_uuid ≠ r2.uuid := by
      intro r2 hr2 hnone f hfp heq
      have hq2 := hq r2 (List.mem_cons_of_mem _ hr2)
      rw [hstep.2.2.2.2.2.2] at hfp
      have hfp2 := List.mem_filter.mp hfp
      have hne : r2.uuid ≠ r.uuid := by
        intro h
        have := hfp2.2
        rw [heq, h] at this
        simp at this
      have hnone2 : get_audio_list_info db r2.uuid = none := by
        unfold get_audio_list_info at hnone ⊢
        have e1 : where_uuid (fp_delete_audio_list_info db r.uuid).2 r2.uuid =
            fun a => a.uuid == r2.uuid := by
          funext a; exact where_uuid_of_no_quote _ _ hq2 a
        have e2 : where_uuid db r2.uuid = fun a => a.uuid == r2.uuid := by
          funext a; exact where_uuid_of_no_quote _ _ hq2 a
        rw [e1, hstep.2.2.2.2.2.1] at hnone
        rw [e2]
        rw [List.find?_eq_none] at hnone ⊢
        intro a ha hau
        have hau2 : a.uuid = r2.uuid := by simpa using hau
        exact hnone a (List.mem_filter.mpr ⟨ha, by simp [hau2, hne]⟩) hau
      exact hclean r2 (List.mem_cons_of_mem _ hr2) hnone2 f hfp2.1 heq
    have h := ih (fp_delete_audio_list_info db r.uuid).2 hstep.1
      (fun r2 hr2 => hq r2 (List.mem_cons_of_mem _ hr2)) hclean2
    refine ⟨h.1, h.2.1.trans hstep.2.1, h.2.2.1.trans hstep.2.2.1,
      h.2.2.2.1.trans hstep.2.2.2.1, h.2.2.2.2.1.trans hstep.2.2.2.2.1, ?_, ?_⟩
    · rw [h.2.2.2.2.2.1, hstep.2.2.2.2.2.1, List.filter_filter]
      congr 1
      funext a
      simp only [List.any_cons, Bool.not_or]
      exact Bool.and_comm _ _
    · rw [h.2.2.2.2.2.2, hstep.2.2.2.2.2.2, List.filter_filter]
      congr 1
      funext a
      simp only [List.any_cons, Bool.not_or]
      exact Bool.and_comm _ _

/-- The removal of a context whose name holds no quote, in a catalog whose
records have uuids without a quote: on a name that no `context_list` row has it
fails and leaves the store as it was; on a name that a row has, when the store
executes every statement, it succeeds, `context_list` loses the rows of that
name, `audio_list` and `audio_fingerprint` lose the rows of every uuid recorded
under that context, so that afterwards no `context_list` row has the name, no
`audio_list` row has the context, no `audio_fingerprint` row belongs to a
removed uuid and the lookup of a removed uuid finds nothing. -/
theorem fp_delete_context_list_info_of_no_quote (db : Db) (name : String)
    (hq : has_quote name = false) (huq : ∀ a ∈ db.audio_list, has_quote a.uuid = false) :
    ((∀ c ∈ db.context_list, c.name ≠ name) →
      fp_delete_context_list_info db name = (false, db)) ∧
    ((∃ c ∈ db.context_list, c.name = name) → db.faults = [] →
      (fp_delete_context_list_info db name).1 = true ∧
      (fp_delete_context_list_info db name).2.context_list =
        db.context_list.filter (fun c => c.name != name) ∧
      (fp_delete_context_list_info db name).2.audio_list =
        db.audio_list.filter (fun a =>
          !(db.audio_list.filter (fun r => r.context == name)).any (fun r => a.uuid == r.uuid)) ∧
      (fp_delete_context_list_info db name).2.audio_fingerprint =
        db.audio_fingerprint.filter (fun f =>
          !(db.audio_list.filter (fun r => r.context == name)).any
            (fun r => f.audio_uuid == r.uuid)) ∧
      (∀ c ∈ (fp_delete_context_list_info db name).2.context_list, c.name ≠ name) ∧
      (∀ a ∈ (fp_delete_context_list_info db name).2.audio_list, a.context ≠ name) ∧
      (∀ a ∈ db.audio_list, a.context = name →
        (∀ f ∈ (fp_delete_context_list_info db name).2.audio_fingerprint,
          f.audio_uuid ≠ a.uuid) ∧
        get_audio_list_info (fp_delete_context_list_info db name).2 a.uuid = none)) := by
  have hwn : ∀ d : Db, where_name d name = fun r => r.name == name := by
    intro d; funext r; exact where_name_of_no_quote d name hq r
  have hwc : where_context db name = fun r => r.context == name := by
    funext r; exact where_context_of_no_quote db name hq r
  have hlist : fp_get_audio_lists_by_contextname db name =
      db.audio_list.filter (fun r => r.context == name) := by
    unfold fp_get_audio_lists_by_contextname
    rw [hwc]
  constructor
  · intro habs
    unfold fp_delete_context_list_info
    have hnone : fp_get_context_list_info db name = none := by
      unfold fp_get_context_list_info
      rw [hwn, List.find?_eq_none]
      intro c hc
      simpa using habs c hc
    rw [hnone]
  · rintro ⟨c0, hc0, hc0n⟩ hf
    have hex : fp_get_context_list_info db name ≠ none := by
      unfold fp_get_context_list_info
      rw [hwn]
      intro hnone
      have := List.find?_eq_none.mp hnone c0 hc0
      simp [hc0n] at this
    have hloop := delete_audio_lists_no_faults (fp_get_audio_lists_by_contextname db name) db hf
      (fun r hr => huq r (List.mem_filter.mp hr).1)
      (by
        intro r hr hnone
        exfalso
        have hmem : r ∈ db.audio_list := (List.mem_filter.mp hr).1
        unfold get_audio_list_info at hnone
        have e : where_uuid db r.uuid = fun a => a.uuid == r.uuid := by
          funext a; exact where_uuid_of_no_quote _ _ (huq r hmem) a
        rw [e] at hnone
        have := List.find?_eq_none.mp hnone r hmem
        simp at this)
    have hdel := db_ctx_exec_of_effect
      (delete_audio_lists db (fp_get_audio_lists_by_contextname db name))
      { delete_audio_lists db (fp_get_audio_lists_by_contextname db name) with
        faults := (delete_audio_lists db (fp_get_audio_lists_by_contextname db name)).faults.tail,
        issued := (delete_audio_lists db (fp_get_audio_lists_by_contextname db name)).issued ++
          [.delete_context_list name],
        context_list :=
          (delete_audio_lists db (fp_get_audio_lists_by_contextname db name)).context_list.filter
            (fun c => c.name != name) }
      (.delete_context_list name) (by simp [hloop.1]) (by
        simp only [sql_effect]
        rw [hwn]
        rfl)
    have hres : fp_delete_context_list_info db name =
        (true,
          { delete_audio_lists db (fp_get_audio_lists_by_contextname db name) with
            faults :=
              (delete_audio_lists db (fp_get_audio_lists_by_contextname db name)).faults.tail,
            issued := (delete_audio_lists db (fp_get_audio_lists_by_contextname db name)).issued ++
              [.delete_context_list name],
            context_list :=
              (delete_audio_lists db
                (fp_get_audio_lists_by_contextname db name)).context_list.filter
                (fun c => c.name != name) }) := by
      unfold fp_delete_context_list_info delete_context_list_info
      cases hg : fp_get_context_list_info db name with
      | none => exact absurd hg hex
      | some c => simp [hdel]
    rw [hres]
    simp only
    rw [hloop.2.1, hloop.2.2.2.2.2.1, hloop.2.2.2.2.2.2, hlist]
    have hal : ∀ a ∈ db.audio_list.filter (fun a =>
        !(db.audio_list.filter (fun r => r.context == name)).any (fun r => a.uuid == r.uuid)),
        a.context ≠ name := by
      intro a ha hctx
      have ha2 := List.mem_filter.mp ha
      have hmem : a ∈ db.audio_list.filter (fun r => r.context == name) :=
        List.mem_filter.mpr ⟨ha2.1, by simp [hctx]⟩
      have hany : (db.audio_list.filter (fun r => r.context == name)).any
          (fun r => a.uuid == r.uuid) = true :=
        List.any_eq_true.mpr ⟨a, hmem, by simp⟩
      have := ha2.2
      rw [hany] at this
      simp at this
    refine ⟨by trivial, by trivial, by trivial, by trivial, ?_, hal, ?_⟩
    · intro c hc
      have h := (List.mem_filter.mp hc).2
      simpa using h
    · intro a ha hctx
      have hmem : a ∈ db.audio_list.filter (fun r => r.context == name) :=
        List.mem_filter.mpr ⟨ha, by simp [hctx]⟩
      constructor
      · intro f hfp heq
        have hfp2 := (List.mem_filter.mp hfp).2
        have hany : (db.audio_list.filter (fun r => r.context == name)).any
            (fun r => f.audio_uuid == r.uuid) = true :=
          List.any_eq_true.mpr ⟨a, hmem, by simp [heq]⟩
        rw [hany] at hfp2
        simp at hfp2
      · unfold get_audio_list_info
        have e : ∀ d : Db, where_uuid d a.uuid = fun b => b.uuid == a.uuid := by
          intro d; funext b; exact where_uuid_of_no_quote _ _ (huq a ha) b
        rw [e, List.find?_eq_none]
        intro b hb hbu
        have hb2 := (List.mem_filter.mp hb).2
        have hbu2 : b.uuid = a.uuid := by simpa using hbu
        have hany : (db.audio_list.filter (fun r => r.context == name)).any
            (fun r => b.uuid == r.uuid) = true :=
          List.any_eq_true.mpr ⟨a, hmem, by simp [hbu2]⟩
        rw [hany] at hb2
        simp at hb2

/-- C14 fails on the code: no `context_list` row of the catalog is named
`x' or '1'='1`, a text with quotes; the clauses `name == '%s'` and
`context = '%s'` built from it select every row, so
`fp_delete_context_list_info` finds a context, removes every record with its
frames, deletes every `context_list` row, and returns success. -/
theorem C14_quoted_name_removes_every_context :
    (∀ c ∈ db_two_contexts.context_list, c.name ≠ quoted_text) ∧
      db_two_contexts.context_list.map (fun c => c.name) = ["music", "prompts"] ∧
      db_two_contexts.audio_list.map (fun r => r.uuid) = [uuid_1, uuid_2] ∧
      db_two_contexts.audio_fingerprint.map (fun r => r.audio_uuid) =
        [uuid_1, uuid_1, uuid_2] ∧
      (fp_delete_context_list_info db_two_contexts quoted_text).1 = true ∧
      (fp_delete_context_list_info db_two_contexts quoted_text).2.context_list = [] ∧
      (fp_delete_context_list_info db_two_contexts quoted_text).2.audio_list = [] ∧
      (fp_delete_context_list_info db_two_contexts quoted_text).2.audio_fingerprint.length =
        0 := by
  refine ⟨by decide, by decide, by decide, by decide, by decide, by decide, by decide,
    by decide⟩

end Tiresias
